import Mathlib

/-!
Verification of socks2conn: SOCKS4a / SOCKS5 front-end decoders

A shallow embedding of `server/socks4a/socks4a.go`, `server/socks5/socks5.go` and the
per-connection handler of `server/socks.go`, followed by theorems about them.

Conventions of the embedding:

* a Go `string` or `[]byte` is the list of its bytes (`Bytes`), a byte being a natural number;
* a `net.Conn` is the pair of the bytes the peer has sent and that are not read yet (`input`)
  and the bytes written to the peer so far (`output`), plus the error that `Write` returns
  on that connection, if any (`werr`);
* a Go function returning `(T, error)` on a connection returns its values together with the
  connection state it leaves behind.
-/

namespace Socks2conn

/-- A Go string or byte slice, as the list of its bytes. -/
abbrev Bytes := List Nat

/-- A Go `error` value, identified with its text. -/
abbrev Error := String

/-- The bytes of an ASCII string literal. -/
def str (s : String) : Bytes := s.toList.map Char.toNat

deriving instance DecidableEq for Except

/-- A network connection seen from the server: what is left to read, what was written,
and the error every `Write` returns (`none` for a connection that accepts writes). -/
structure Conn where
  input : Bytes
  output : Bytes
  werr : Option Error
deriving DecidableEq, Repr

/-- Two connection states with the same written bytes and the same write side: they differ at
most in what is left to read. -/
def Conn.frame (a b : Conn) : Prop := a.output = b.output ∧ a.werr = b.werr

/-- What a decoder hands back: the Go pair `(string, error)` and the connection state. -/
structure Outcome where
  addr : Bytes
  err : Option Error
  conn : Conn
deriving DecidableEq, Repr

/-! ## Go standard library -/

/-- `io.ReadFull(conn, buf)` with `len(buf) = k`: the next `k` bytes, or a failure that has
drained the input when fewer than `k` bytes arrive. A zero-length read always succeeds. -/
def readFull (c : Conn) (k : Nat) : Option Bytes × Conn :=
  if k ≤ c.input.length then
    (some (c.input.take k), { c with input := c.input.drop k })
  else
    (none, { c with input := [] })

/-- `conn.Write(b)`: appends `b` to the output, or returns the connection's write error. -/
def Conn.write (c : Conn) (b : Bytes) : Option Error × Conn :=
  match c.werr with
  | some e => (some e, c)
  | none => (none, { c with output := c.output ++ b })

/-- `binary.BigEndian.Uint16(b)`: `uint16(b[1]) | uint16(b[0])<<8`. -/
def Uint16 (b : Bytes) : Nat :=
  (b.getD 1 0 ||| (b.getD 0 0 <<< 8)) % 2 ^ 16

/-- `binary.BigEndian.PutUint16(b, v)`: `b[0] = byte(v >> 8)`, `b[1] = byte(v)`. -/
def PutUint16 (v : Nat) : Bytes :=
  [(v >>> 8) % 256, v % 256]

/-- `strconv.Itoa` on a non-negative integer: decimal digits, no leading zeros. -/
def Itoa (n : Nat) : Bytes := (Nat.toDigits 10 n).map Char.toNat

/-- `appendHex` of `net/netip`: lower-case hexadecimal digits of a 16-bit group, no leading
zeros. -/
def appendHex (x : Nat) : Bytes := (Nat.toDigits 16 x).map Char.toNat

/-- `hexString` of package `net`: two lower-case hexadecimal digits per byte. -/
def hexString (b : Bytes) : Bytes :=
  b.foldr (fun v acc => (Nat.digitChar (v / 16)).toNat :: (Nat.digitChar (v % 16)).toNat :: acc) []

/-- `isZeros` of package `net`. -/
def isZeros (p : Bytes) : Bool := p.all (fun b => b == 0)

/-- `IP.To4`: a 4-byte address is returned as is, a 16-byte IPv4-mapped address gives its last
four bytes, anything else gives `nil`. -/
def To4 (ip : Bytes) : Option Bytes :=
  if ip.length = 4 then some ip
  else if ip.length = 16 ∧ isZeros (ip.take 10) = true ∧ ip.getD 10 0 = 0xff ∧ ip.getD 11 0 = 0xff then
    some (ip.drop 12)
  else none

/-- `IP.To16`: a 4-byte address becomes the IPv4-mapped 16-byte address. -/
def To16 (ip : Bytes) : Option Bytes :=
  if ip.length = 4 then some ([0, 0, 0, 0, 0, 0, 0, 0, 0, 0, 0xff, 0xff] ++ ip)
  else if ip.length = 16 then some ip
  else none

/-- Dotted-decimal text of four bytes (`netip.Addr.string4`). -/
def string4 (p : Bytes) : Bytes :=
  Itoa (p.getD 0 0) ++ str "." ++ Itoa (p.getD 1 0) ++ str "." ++ Itoa (p.getD 2 0) ++ str "." ++
    Itoa (p.getD 3 0)

/-- The eight 16-bit groups of a 16-byte address (`v6u16`). -/
def v6groups (ip : Bytes) : List Nat :=
  (List.range 8).map (fun i => ip.getD (2 * i) 0 * 256 + ip.getD (2 * i + 1) 0)

/-- First loop of `appendTo6`: the first longest run of at least two zero groups, as
`(zeroStart, zeroEnd)`; `(255, 255)` when there is none. -/
def longestZeroRun (gs : List Nat) : Nat × Nat :=
  (List.range 8).foldl
    (fun (z : Nat × Nat) i =>
      let j := i + ((gs.drop i).takeWhile (fun g => g == 0)).length
      let l := j - i
      if l ≥ 2 ∧ l > z.2 - z.1 then (i, j) else z)
    (255, 255)

/-- Second loop of `appendTo6`, from group `i` on, `ret` being the text so far. The first
argument bounds the number of iterations (eight are enough: `i` grows at each one). -/
def appendTo6Loop (gs : List Nat) (zeroStart zeroEnd : Nat) : Nat → Nat → Bytes → Bytes
  | 0, _, ret => ret
  | fuel + 1, i, ret =>
    if i < 8 then
      if i = zeroStart then
        let ret := ret ++ str "::"
        let i := zeroEnd
        if i ≥ 8 then ret
        else appendTo6Loop gs zeroStart zeroEnd fuel (i + 1) (ret ++ appendHex (gs.getD i 0))
      else
        let ret := if i > 0 then ret ++ str ":" else ret
        appendTo6Loop gs zeroStart zeroEnd fuel (i + 1) (ret ++ appendHex (gs.getD i 0))
    else ret

/-- Colon-hexadecimal text of sixteen bytes (`netip.Addr.string6`, no zone). -/
def string6 (ip : Bytes) : Bytes :=
  let gs := v6groups ip
  let z := longestZeroRun gs
  appendTo6Loop gs z.1 z.2 8 0 []

/-- `net.IP.String`: `"<nil>"` for an empty slice, `"?"` and the hexadecimal dump for a
length other than 4 or 16, dotted decimal when `To4` succeeds, colon-hexadecimal otherwise. -/
def IPString (ip : Bytes) : Bytes :=
  if ip.length = 0 then str "<nil>"
  else if ip.length ≠ 4 ∧ ip.length ≠ 16 then str "?" ++ hexString ip
  else
    match To4 ip with
    | some p4 => string4 p4
    | none => string6 ip

/-- The loop of `netip.parseIPv4` over the rest of the text. `first` says that the current
character is `s[0]`, `prev` is the previous character, `fields` holds the octets stored so
far (so `pos = fields.length`). -/
def parseIPv4Loop (first : Bool) (prev val digLen : Nat) (fields : Bytes) : Bytes → Option Bytes
  | [] => if fields.length < 3 then none else some (fields ++ [val % 256])
  | ch :: rest =>
    if 48 ≤ ch ∧ ch ≤ 57 then
      if digLen = 1 ∧ val = 0 then none
      else
        let val := val * 10 + ch - 48
        if val > 255 then none
        else parseIPv4Loop false ch val (digLen + 1) fields rest
    else if ch = 46 then
      if first = true ∨ rest = [] ∨ prev = 46 then none
      else if fields.length = 3 then none
      else parseIPv4Loop false ch 0 0 (fields ++ [val % 256]) rest
    else none

/-- `netip.parseIPv4`: the four octets of a dotted-decimal text. -/
def parseIPv4 (s : Bytes) : Option Bytes := parseIPv4Loop true 0 0 0 [] s

/-- The hexadecimal-group loop of `netip.parseIPv6`: reads hexadecimal digits from the text,
`off` counting them and `acc` holding their value. Gives `(off, acc, rest)` at the first
character that is not a digit, `none` on a fifth digit or a value above `0xffff`. -/
def hexGroup : Nat → Nat → Bytes → Option (Nat × Nat × Bytes)
  | off, acc, [] => some (off, acc, [])
  | off, acc, c :: rest =>
    if 48 ≤ c ∧ c ≤ 57 then
      if off > 3 then none
      else if acc * 16 + (c - 48) > 65535 then none
      else hexGroup (off + 1) (acc * 16 + (c - 48)) rest
    else if 97 ≤ c ∧ c ≤ 102 then
      if off > 3 then none
      else if acc * 16 + (c - 97 + 10) > 65535 then none
      else hexGroup (off + 1) (acc * 16 + (c - 97 + 10)) rest
    else if 65 ≤ c ∧ c ≤ 70 then
      if off > 3 then none
      else if acc * 16 + (c - 65 + 10) > 65535 then none
      else hexGroup (off + 1) (acc * 16 + (c - 65 + 10)) rest
    else some (off, acc, c :: rest)

/-- The main loop of `netip.parseIPv6` (`for i < 16`): `s` is the text left, `ip` the bytes
stored so far (so `i = ip.length`), `ellipsis` the position of `::` if it was met. Gives the
three when the loop is left, `none` when the function returns an error inside it. The first
argument bounds the number of iterations (`i` grows by two at each one). -/
def parseIPv6Loop : Nat → Bytes → Bytes → Option Nat → Option (Bytes × Bytes × Option Nat)
  | 0, s, ip, ellipsis => some (s, ip, ellipsis)
  | fuel + 1, s, ip, ellipsis =>
    if ip.length < 16 then
      match hexGroup 0 0 s with
      | none => none
      | some (off, acc, s1) =>
        if off = 0 then none
        else if s1.head? = some 46 then
          if ellipsis = none ∧ ip.length ≠ 12 then none
          else if ip.length + 4 > 16 then none
          else
            match parseIPv4 s with
            | none => none
            | some ip4 => some ([], ip ++ ip4, ellipsis)
        else
          let ip := ip ++ [(acc >>> 8) % 256, acc % 256]
          match s1 with
          | [] => some ([], ip, ellipsis)
          | c :: s2 =>
            if c ≠ 58 then none
            else if s2 = [] then none
            else if s2.head? = some 58 then
              if ellipsis.isSome then none
              else if s2.tail = [] then some ([], ip, some ip.length)
              else parseIPv6Loop fuel s2.tail ip (some ip.length)
            else parseIPv6Loop fuel s2 ip ellipsis
    else some (s, ip, ellipsis)

/-- `netip.parseIPv6` as `net.ParseIP` uses it: the sixteen bytes of a colon-hexadecimal
text, `none` for a malformed text and for every text with a zone (a `%`). -/
def parseIPv6 (s : Bytes) : Option Bytes :=
  if 37 ∈ s then none
  else
    let lead := s.take 2 == [58, 58]
    let s1 := if lead then s.drop 2 else s
    if lead ∧ s1 = [] then some (List.replicate 16 0)
    else
      match parseIPv6Loop 9 s1 [] (if lead then some 0 else none) with
      | none => none
      | some (left, ip, ellipsis) =>
        if left ≠ [] then none
        else if ip.length < 16 then
          match ellipsis with
          | none => none
          | some e => some (ip.take e ++ List.replicate (16 - ip.length) 0 ++ ip.drop e)
        else if ellipsis.isSome then none
        else some ip

/-- The scan of `netip.ParseAddr`: the first of `.`, `:` and `%` in the text decides how it is
parsed, a text with none of them is rejected. -/
def parseAddrScan (s : Bytes) : Bytes → Option Bytes
  | [] => none
  | ch :: rest =>
    if ch = 46 then (parseIPv4 s).bind To16
    else if ch = 58 then parseIPv6 s
    else if ch = 37 then none
    else parseAddrScan s rest

/-- `net.ParseIP`: the 16-byte form of the address, or `nil`. -/
def ParseIP (s : Bytes) : Option Bytes :=
  parseAddrScan s s

/-- `net.JoinHostPort`: the host is bracketed when it contains a colon. -/
def JoinHostPort (host port : Bytes) : Bytes :=
  if 58 ∈ host then str "[" ++ host ++ str "]:" ++ port
  else host ++ str ":" ++ port

/-! ## `server/socks4a/socks4a.go` -/

namespace Socks4a

/-- Type `command`, a byte. -/
def connect : Nat := 1

def bind : Nat := 2

/-- Type `resultCode`, a byte. 90: request granted. -/
def requestGranted : Nat := 90

/-- Result code 91: request rejected or failed. -/
def requestRejectedOrFailed : Nat := 91

/-- Result code 92: request rejected because the SOCKS server cannot connect to identd on
the client. -/
def requestRejectedCannotConnect : Nat := 92

/-- Result code 93: request rejected because the client program and identd report
different user-ids. -/
def requestRejectedDiffUserIds : Nat := 93

structure request where
  cmd : Nat
  destHost : Bytes
  destPort : Nat
deriving DecidableEq, Repr

structure reply where
  resCode : Nat
  bindAddr : Bytes
  bindPort : Nat
deriving DecidableEq, Repr

/-- `isDomainUnresolved(ip)`: the address is 0.0.0.x with x not 0. -/
def isDomainUnresolved (ip : Bytes) : Bool :=
  (ip.take 3 == [0, 0, 0]) && (ip.getD 3 0 != 0)

/-- The user-id loop of `parseRequest` on the unread input: one byte is read at a time until
a zero byte, nothing is kept. Gives the input left after the zero byte, or `none` when the
input ends first (the read fails). -/
def readUserId : Bytes → Option Bytes
  | [] => none
  | b :: rest => if b = 0 then some rest else readUserId rest

/-- The domain-name loop of `parseRequest` on the unread input: one byte is read at a time
until a zero byte, the bytes before it are collected in order. Gives the name and the input
left after the zero byte, or `none` when the input ends first. -/
def readDomainName : Bytes → Option (Bytes × Bytes)
  | [] => none
  | b :: rest =>
    if b = 0 then some ([], rest)
    else
      match readDomainName rest with
      | none => none
      | some (name, left) => some (b :: name, left)

/-- `parseRequest(conn)`. -/
def parseRequest (c : Conn) : Except Error request × Conn :=
  match readFull c 7 with
  | (none, c) => (.error "could not read request header", c)
  | (some buf, c) =>
    match readUserId c.input with
    | none => (.error "could not read (a byte) from the userid", { c with input := [] })
    | some left =>
      let c := { c with input := left }
      let cmd := buf.getD 0 0
      let destPort := Uint16 ((buf.drop 1).take 2)
      if isDomainUnresolved ((buf.drop 3).take 4) = true then
        match readDomainName c.input with
        | none => (.error "could not read (a byte) from the domain name", { c with input := [] })
        | some (domainName, left) =>
          (.ok { cmd := cmd, destHost := domainName, destPort := destPort }, { c with input := left })
      else
        (.ok { cmd := cmd, destHost := IPString ((buf.drop 3).take 4), destPort := destPort }, c)

/-- `(*reply).marshal()`. -/
def reply.marshal (r : reply) : Except Error Bytes :=
  let buf := [0, r.resCode]
  let bindPortBinary := PutUint16 r.bindPort
  match (ParseIP r.bindAddr).bind To4 with
  | none => .error "invalid IPv4 address (in reply header)"
  | some bindAddrBinary => .ok (buf ++ bindPortBinary ++ bindAddrBinary)

/-- `(*client).sendFailure(code)`: the marshal error is dropped (`buf` is then nil). -/
def sendFailure (c : Conn) (code : Nat) : Option Error × Conn :=
  let rep : reply := { resCode := code, bindAddr := str "0.0.0.0", bindPort := 0 }
  let buf := match rep.marshal with
    | .ok b => b
    | .error _ => []
  c.write buf

/-- `(*client).handle()`. After a successful `parseRequest` the variable `err` is nil: it is
tested a second time and it is the value returned on the non-CONNECT path. -/
def handle (c : Conn) : Outcome :=
  match parseRequest c with
  | (.error e, c) => { addr := [], err := some e, conn := c }
  | (.ok req, c) =>
    let err : Option Error := none
    match err with
    | some e =>
      let c := (sendFailure c requestRejectedOrFailed).2
      { addr := [], err := some e, conn := c }
    | none =>
      if req.cmd ≠ connect then
        let c := (sendFailure c requestRejectedCannotConnect).2
        { addr := [], err := err, conn := c }
      else
        let rep : reply := { resCode := requestGranted, bindAddr := str "0.0.0.0", bindPort := 0 }
        match rep.marshal with
        | .error e =>
          let c := (sendFailure c requestRejectedOrFailed).2
          { addr := [], err := some e, conn := c }
        | .ok buf =>
          match c.write buf with
          | (some e, c) => { addr := [], err := some e, conn := c }
          | (none, c) =>
            { addr := JoinHostPort req.destHost (Itoa req.destPort), err := none, conn := c }

/-- `HandleConnection(conn)`. -/
def HandleConnection (conn : Conn) : Outcome :=
  handle conn

end Socks4a

/-! ## `server/socks5/socks5.go` -/

namespace Socks5

def socksServerVersion : Nat := 5

def noAuthMethodRequired : Nat := 0x00

def noAcceptableMethod : Nat := 0xFF

/-- Type `command`, a byte. -/
def connect : Nat := 1

def bind : Nat := 2

def udpAssociate : Nat := 3

/-- Type `addrType`, a byte. -/
def ipv4 : Nat := 1

def domainname : Nat := 3

def ipv6 : Nat := 4

/-- Type `resultCode`, a byte. -/
def succeeded : Nat := 0

def generalSocksFailure : Nat := 1

def connectionNotAllowed : Nat := 2

def networkUnreachable : Nat := 3

def hostUnreachable : Nat := 4

def connectionRefused : Nat := 5

def ttlExpired : Nat := 6

def commandNotSupported : Nat := 7

def addressTypeNotSupported : Nat := 8

structure request where
  cmd : Nat
  addressType : Nat
  destHost : Bytes
  destPort : Nat
deriving DecidableEq, Repr

structure reply where
  resCode : Nat
  addressType : Nat
  bindAddr : Bytes
  bindPort : Nat
deriving DecidableEq, Repr

/-- The `for _, method := range authMethods` loop of `handleHandshake`: at the first method
equal to `noAuthMethodRequired` the reply is written and the function returns (`some`);
`none` when the loop ends without returning. -/
def methodsLoop (c : Conn) : Bytes → Option (Option Error × Conn)
  | [] => none
  | method :: rest =>
    if method = noAuthMethodRequired then
      match c.write [socksServerVersion, noAuthMethodRequired] with
      | (some e, c) =>
        some (some ("could not write handshake reply (nnoAuthMethodRequired): " ++ e), c)
      | (none, c) => some (none, c)
    else methodsLoop c rest

/-- `handleHandshake(conn)`. -/
def handleHandshake (c : Conn) : Option Error × Conn :=
  match readFull c 1 with
  | (none, c) => (some "could not read len of methods (handshake)", c)
  | (some nAuthMethods, c) =>
    match readFull c (nAuthMethods.getD 0 0) with
    | (none, c) => (some "could not read the list of auth methods (handshake)", c)
    | (some authMethods, c) =>
      match methodsLoop c authMethods with
      | some r => r
      | none =>
        match c.write [socksServerVersion, noAcceptableMethod] with
        | (some e, c) =>
          (some ("could not write handshake reply (noAcceptableMethod): " ++ e), c)
        | (none, c) => (some "no auth method is accepted", c)

/-- `parseRequest(conn)`. -/
def parseRequest (c : Conn) : Except Error request × Conn :=
  match readFull c 4 with
  | (none, c) => (.error "could not read request header", c)
  | (some buf, c) =>
    let cmd := buf.getD 1 0
    let addressType := buf.getD 3 0
    let host : Except Error Bytes × Conn :=
      if addressType = ipv4 then
        match readFull c 4 with
        | (none, c) => (.error "could not read dest IPv4 address (in request header)", c)
        | (some addr, c) => (.ok (IPString addr), c)
      else if addressType = domainname then
        match readFull c 1 with
        | (none, c) => (.error "could not read dest domain name length (in request header)", c)
        | (some length, c) =>
          match readFull c (length.getD 0 0) with
          | (none, c) => (.error "could not read the dest domain name (in request header)", c)
          | (some buf, c) => (.ok buf, c)
      else if addressType = ipv6 then
        match readFull c 16 with
        | (none, c) => (.error "could not read dest IPv6 address (in request header)", c)
        | (some addr, c) => (.ok (IPString addr), c)
      else
        (.error ("invalid address type code -> (" ++ toString addressType ++ ") <-"), c)
    match host with
    | (.error e, c) => (.error e, c)
    | (.ok destHost, c) =>
      match readFull c 2 with
      | (none, c) => (.error "could not read dest port (in request header)", c)
      | (some portBuf, c) =>
        let destPort := Uint16 portBuf
        (.ok { cmd := cmd, addressType := addressType, destHost := destHost, destPort := destPort }, c)

/-- `(*reply).marshal()`. -/
def reply.marshal (r : reply) : Except Error Bytes :=
  let buf := [socksServerVersion, r.resCode, 0, r.addressType]
  let addr : Except Error Bytes :=
    if r.addressType = ipv4 then
      match (ParseIP r.bindAddr).bind To4 with
      | none => .error "invalid IPv4 address (in reply header)"
      | some b => .ok b
    else if r.addressType = domainname then
      if r.bindAddr.length > 255 then .error "invalid domain name (in reply header)"
      else .ok ([r.bindAddr.length % 256] ++ r.bindAddr)
    else if r.addressType = ipv6 then
      match (ParseIP r.bindAddr).bind To16 with
      | none => .error "invalid IPv6 address (in replyl header)"
      | some b => .ok b
    else
      .error ("invalid address type code -> (" ++ toString r.addressType ++ ") <- (in reply header)")
  match addr with
  | .error e => .error e
  | .ok bindAddrBinary =>
    let bindPortBinary := PutUint16 r.bindPort
    .ok (buf ++ bindAddrBinary ++ bindPortBinary)

/-- `(*client).sendFailure(code)`: the marshal error is dropped (`buf` is then nil). -/
def sendFailure (c : Conn) (code : Nat) : Option Error × Conn :=
  let rep : reply := { resCode := code, addressType := ipv4, bindAddr := str "0.0.0.0", bindPort := 0 }
  let buf := match rep.marshal with
    | .ok b => b
    | .error _ => []
  c.write buf

/-- `(*client).handle()`. -/
def handle (c : Conn) : Outcome :=
  match handleHandshake c with
  | (some e, c) => { addr := [], err := some e, conn := c }
  | (none, c) =>
    match parseRequest c with
    | (.error e, c) =>
      let c := (sendFailure c generalSocksFailure).2
      { addr := [], err := some e, conn := c }
    | (.ok req, c) =>
      if req.cmd ≠ connect then
        let c := (sendFailure c commandNotSupported).2
        { addr := [], err := some ("inacceptable command: " ++ toString req.cmd), conn := c }
      else
        let rep : reply :=
          { resCode := succeeded, addressType := ipv4, bindAddr := str "0.0.0.0", bindPort := 0 }
        match rep.marshal with
        | .error e =>
          let c := (sendFailure c generalSocksFailure).2
          { addr := [], err := some e, conn := c }
        | .ok buf =>
          match c.write buf with
          | (some e, c) => { addr := [], err := some e, conn := c }
          | (none, c) =>
            { addr := JoinHostPort req.destHost (Itoa req.destPort), err := none, conn := c }

/-- `HandleConnection(conn)`. -/
def HandleConnection (conn : Conn) : Outcome :=
  handle conn

end Socks5

/-! ## `server/socks.go` -/

namespace Server

def socksVersion4 : Nat := 4

def socksVersion5 : Nat := 5

/-- The upstream proxy as the handler meets it: the result of `net.DialTimeout`, of
`req.Write(serverConn)` and of `http.ReadResponse` (the status code of the response, or the
read error). -/
structure Upstream where
  dialErr : Option Error
  writeErr : Option Error
  response : Except Error Nat
deriving DecidableEq, Repr

/-- What one run of the per-connection handler did: the client connection as it is when the
handler returns (it is closed then), the version whose decoder was invoked, whether the
upstream was dialed, the `Host` of the CONNECT request written to it, and whether the two
copy tasks were started. -/
structure Session where
  conn : Conn
  decoder : Option Nat
  dialed : Bool
  connectHost : Option Bytes
  relayStarted : Bool
deriving DecidableEq, Repr

/-- The handler after the version switch: `addr, err` come from the decoder of version
`v`. `http.NewRequest(http.MethodConnect, "", nil)` does not fail. -/
def tunnel (up : Upstream) (v : Nat) (r : Outcome) : Session :=
  match r.err with
  | some _ =>
    { conn := r.conn, decoder := some v, dialed := false, connectHost := none, relayStarted := false }
  | none =>
    match up.dialErr with
    | some _ =>
      { conn := r.conn, decoder := some v, dialed := true, connectHost := none, relayStarted := false }
    | none =>
      match up.writeErr with
      | some _ =>
        { conn := r.conn, decoder := some v, dialed := true, connectHost := none,
          relayStarted := false }
      | none =>
        match up.response with
        | .error _ =>
          { conn := r.conn, decoder := some v, dialed := true, connectHost := some r.addr,
            relayStarted := false }
        | .ok statusCode =>
          if statusCode ≠ 200 then
            { conn := r.conn, decoder := some v, dialed := true, connectHost := some r.addr,
              relayStarted := false }
          else
            { conn := r.conn, decoder := some v, dialed := true, connectHost := some r.addr,
              relayStarted := true }

/-- The goroutine started by `ListenAndServe` for each accepted connection. -/
def serveConn (up : Upstream) (conn : Conn) : Session :=
  match readFull conn 1 with
  | (none, conn) =>
    { conn := conn, decoder := none, dialed := false, connectHost := none, relayStarted := false }
  | (some buf, conn) =>
    if buf.getD 0 0 = socksVersion4 then
      tunnel up socksVersion4 (Socks4a.HandleConnection conn)
    else if buf.getD 0 0 = socksVersion5 then
      tunnel up socksVersion5 (Socks5.HandleConnection conn)
    else
      { conn := conn, decoder := none, dialed := false, connectHost := none, relayStarted := false }

end Server

end Socks2conn

/-! ## Lemmas on the connection model -/

namespace Socks2conn

theorem readFull_append (a left out : Bytes) (w : Option Error) :
    readFull { input := a ++ left, output := out, werr := w } a.length =
      (some a, { input := left, output := out, werr := w }) := by
  simp [readFull]

theorem readFull_output (c : Conn) (k : Nat) : (readFull c k).2.output = c.output := by
  unfold readFull; split <;> rfl

theorem readFull_werr (c : Conn) (k : Nat) : (readFull c k).2.werr = c.werr := by
  unfold readFull; split <;> rfl

theorem Conn.frame.trans {a b c : Conn} (h1 : a.frame b) (h2 : b.frame c) : a.frame c :=
  ⟨h1.1.trans h2.1, h1.2.trans h2.2⟩

theorem write_ok (c : Conn) (b : Bytes) (h : c.werr = none) :
    c.write b = (none, { c with output := c.output ++ b }) := by
  simp [Conn.write, h]

theorem parseIP_wildcard_to4 : (ParseIP (str "0.0.0.0")).bind To4 = some [0, 0, 0, 0] := by
  decide

theorem uint16_bytes (hi lo : Nat) (hhi : hi < 256) (hlo : lo < 256) :
    Uint16 [hi, lo] = 256 * hi + lo := by
  have h : 2 ^ 8 * hi + lo = 2 ^ 8 * hi ||| lo := Nat.mul_add_lt_is_or (by omega) hi
  simp only [Uint16, List.getD_cons_zero, List.getD_cons_succ]
  rw [Nat.or_comm, Nat.shiftLeft_eq, Nat.mul_comm hi, ← h]
  omega

end Socks2conn

/-! ## Lemmas on the SOCKS4a decoder -/

namespace Socks2conn

theorem socks4a_marshal_wildcard (code : Nat) :
    Socks4a.reply.marshal { resCode := code, bindAddr := str "0.0.0.0", bindPort := 0 } =
      .ok [0, code, 0, 0, 0, 0, 0, 0] := by
  simp only [Socks4a.reply.marshal, parseIP_wildcard_to4]
  rfl

theorem socks4a_sendFailure_ok (c : Conn) (code : Nat) (h : c.werr = none) :
    Socks4a.sendFailure c code =
      (none, { c with output := c.output ++ [0, code, 0, 0, 0, 0, 0, 0] }) := by
  simp only [Socks4a.sendFailure, socks4a_marshal_wildcard]
  exact write_ok c _ h

theorem socks4a_readUserId_append (u left : Bytes) (h : 0 ∉ u) :
    Socks4a.readUserId (u ++ 0 :: left) = some left := by
  induction u with
  | nil => simp [Socks4a.readUserId]
  | cons b u ih =>
    have hb : b ≠ 0 := fun e => h (by simp [e])
    have hu : 0 ∉ u := fun e => h (by simp [e])
    simp [Socks4a.readUserId, hb, ih hu]

theorem socks4a_readDomainName_append (d left : Bytes) (h : 0 ∉ d) :
    Socks4a.readDomainName (d ++ 0 :: left) = some (d, left) := by
  induction d with
  | nil => simp [Socks4a.readDomainName]
  | cons b d ih =>
    have hb : b ≠ 0 := fun e => h (by simp [e])
    have hd : 0 ∉ d := fun e => h (by simp [e])
    simp [Socks4a.readDomainName, hb, ih hd]

theorem socks4a_parseRequest_output (c : Conn) :
    (Socks4a.parseRequest c).2.output = c.output := by
  have h := readFull_output c 7
  unfold Socks4a.parseRequest
  split
  · next c1 e => rw [e] at h; exact h
  · next buf c1 e =>
    rw [e] at h
    split
    · exact h
    · dsimp only
      split
      · split <;> exact h
      · exact h

theorem socks4a_parseRequest_werr (c : Conn) :
    (Socks4a.parseRequest c).2.werr = c.werr := by
  have h := readFull_werr c 7
  unfold Socks4a.parseRequest
  split
  · next c1 e => rw [e] at h; exact h
  · next buf c1 e =>
    rw [e] at h
    split
    · exact h
    · dsimp only
      split
      · split <;> exact h
      · exact h

/-- The non-CONNECT path of the SOCKS4a `handle` on a connection that accepts writes: the
reply carries code 92 and the returned error is nil. -/
theorem socks4a_handle_non_connect (c c1 : Conn) (req : Socks4a.request)
    (hp : Socks4a.parseRequest c = (.ok req, c1)) (hcmd : req.cmd ≠ Socks4a.connect)
    (hw : c.werr = none) :
    Socks4a.handle c =
      { addr := [], err := none,
        conn := { c1 with output := c.output ++ [0, 92, 0, 0, 0, 0, 0, 0] } } := by
  have ho : c1.output = c.output := by
    have := socks4a_parseRequest_output c; rw [hp] at this; exact this
  have hw1 : c1.werr = none := by
    have := socks4a_parseRequest_werr c; rw [hp] at this; rw [← hw]; exact this
  simp only [Socks4a.handle, hp, hcmd, ne_eq, not_false_eq_true, if_true,
    socks4a_sendFailure_ok c1 _ hw1, ho, Socks4a.requestRejectedCannotConnect]

/-- The CONNECT path of the SOCKS4a `handle` on a connection that accepts writes. -/
theorem socks4a_handle_connect (c c1 : Conn) (req : Socks4a.request)
    (hp : Socks4a.parseRequest c = (.ok req, c1)) (hcmd : req.cmd = Socks4a.connect)
    (hw : c.werr = none) :
    Socks4a.handle c =
      { addr := JoinHostPort req.destHost (Itoa req.destPort), err := none,
        conn := { c1 with output := c.output ++ [0, 90, 0, 0, 0, 0, 0, 0] } } := by
  have ho : c1.output = c.output := by
    have := socks4a_parseRequest_output c; rw [hp] at this; exact this
  have hw1 : c1.werr = none := by
    have := socks4a_parseRequest_werr c; rw [hp] at this; rw [← hw]; exact this
  simp only [Socks4a.handle, hp, hcmd, ne_eq, not_true_eq_false, if_false,
    socks4a_marshal_wildcard, write_ok c1 _ hw1, ho, Socks4a.requestGranted]

end Socks2conn

/-! ## SOCKS4a: claims -/

namespace Socks2conn

/-- C1 (defect of the code): on the well-formed SOCKS4a BIND request `cmd = 2`, `port = 80`,
`ip = 1.2.3.4`, empty user-id, `handle` writes a reply whose result code is 92
(`requestRejectedCannotConnect`, the identd code), so the bytes written are not the
reject-generic reply `0, 91, 0, 0, 0, 0, 0, 0`. -/
theorem C1_socks4a_bind_reply_code_is_92 :
    (Socks4a.handle { input := [2, 0, 80, 1, 2, 3, 4, 0], output := [], werr := none }).conn.output
        = [0, 92, 0, 0, 0, 0, 0, 0] ∧
      (Socks4a.handle { input := [2, 0, 80, 1, 2, 3, 4, 0], output := [], werr := none }).conn.output
        ≠ [0, 91, 0, 0, 0, 0, 0, 0] := by
  decide

/-- C2 (defect of the code): on the well-formed SOCKS4a BIND request `cmd = 2`, `port = 80`,
`ip = 1.2.3.4`, empty user-id, `HandleConnection` returns the empty string with a nil error,
and the per-connection handler, given that request after the version byte 4, does dial the
upstream, whatever the upstream then does. -/
theorem C2_socks4a_bind_returns_nil_error :
    (Socks4a.HandleConnection
        { input := [2, 0, 80, 1, 2, 3, 4, 0], output := [], werr := none }).err = none ∧
      (Socks4a.HandleConnection
        { input := [2, 0, 80, 1, 2, 3, 4, 0], output := [], werr := none }).addr = [] ∧
      ∀ up : Server.Upstream,
        (Server.serveConn up
          { input := [4, 2, 0, 80, 1, 2, 3, 4, 0], output := [], werr := none }).dialed = true := by
  refine ⟨by decide, by decide, ?_⟩
  intro up
  have e : Server.serveConn up
      { input := [4, 2, 0, 80, 1, 2, 3, 4, 0], output := [], werr := none } =
      Server.tunnel up 4 (Socks4a.HandleConnection
        { input := [2, 0, 80, 1, 2, 3, 4, 0], output := [], werr := none }) := rfl
  have e1 : (Socks4a.HandleConnection
      { input := [2, 0, 80, 1, 2, 3, 4, 0], output := [], werr := none }).err = none := by decide
  rw [e]
  unfold Server.tunnel
  rw [e1]
  dsimp only
  split
  · rfl
  · split
    · rfl
    · split
      · rfl
      · split <;> rfl

/-- C6: for a SOCKS4a request whose IPv4 field is `0.0.0.x` with `x ≠ 0`, with any command
and port bytes, a user-id `userid` and a domain `domain` (neither holding a zero byte), each
followed by its NUL, `parseRequest` succeeds, consumes the request up to the second NUL and
returns as `destHost` exactly the bytes of `domain`; and on the scenario-B request (CONNECT,
port 443, ip 0.0.0.1, empty user-id, domain `example.com`) `handle` returns the destination
`example.com:443`. -/
theorem C6_socks4a_domain_is_second_string (cmd p1 p2 x : Nat) (userid domain left out : Bytes)
    (w : Option Error) (hx : x ≠ 0) (hu : 0 ∉ userid) (hd : 0 ∉ domain) :
    Socks4a.parseRequest
        { input := [cmd, p1, p2, 0, 0, 0, x] ++ userid ++ [0] ++ domain ++ [0] ++ left,
          output := out, werr := w } =
      (.ok { cmd := cmd, destHost := domain, destPort := Uint16 [p1, p2] },
        { input := left, output := out, werr := w }) ∧
    (Socks4a.handle
        { input := [1, 1, 0xBB, 0, 0, 0, 1] ++ [] ++ [0] ++ str "example.com" ++ [0],
          output := [], werr := none }).addr = str "example.com:443" := by
  refine ⟨?_, by decide⟩
  have e : [cmd, p1, p2, 0, 0, 0, x] ++ userid ++ [0] ++ domain ++ [0] ++ left =
      [cmd, p1, p2, 0, 0, 0, x] ++ (userid ++ 0 :: (domain ++ 0 :: left)) := by simp
  rw [e]
  have hr := readFull_append [cmd, p1, p2, 0, 0, 0, x] (userid ++ 0 :: (domain ++ 0 :: left)) out w
  simp only [List.length_cons, List.length_nil] at hr
  simp only [Socks4a.parseRequest, hr, socks4a_readUserId_append _ _ hu,
    socks4a_readDomainName_append _ _ hd]
  simp [Socks4a.isDomainUnresolved, hx]

/-- Witness of C6: CONNECT, port 8080, ip 0.0.0.7, user-id `u`, domain `a.b`, one byte left
over. -/
theorem C6_socks4a_domain_is_second_string_witness :
    (7 ≠ 0 ∧ 0 ∉ str "u" ∧ 0 ∉ str "a.b") ∧
    (Socks4a.parseRequest
        { input := [1, 31, 144, 0, 0, 0, 7] ++ str "u" ++ [0] ++ str "a.b" ++ [0] ++ [9],
          output := [], werr := none } =
      (.ok { cmd := 1, destHost := str "a.b", destPort := Uint16 [31, 144] },
        { input := [9], output := [], werr := none }) ∧
    (Socks4a.handle
        { input := [1, 1, 0xBB, 0, 0, 0, 1] ++ [] ++ [0] ++ str "example.com" ++ [0],
          output := [], werr := none }).addr = str "example.com:443") :=
  ⟨by decide,
    C6_socks4a_domain_is_second_string 1 31 144 7 (str "u") (str "a.b") [9] [] none
      (by decide) (by decide) (by decide)⟩

/-- C7 as stated fails: on the scenario-B request the bytes written by `handle` are not
`0, 90, 0x01, 0xBB, 0, 0, 0, 0`. -/
theorem C7_scenarioB_reply_has_no_port :
    (Socks4a.handle
        { input := [1, 1, 0xBB, 0, 0, 0, 1, 0] ++ str "example.com" ++ [0],
          output := [], werr := none }).conn.output ≠ [0, 90, 0x01, 0xBB, 0, 0, 0, 0] := by
  decide

/-- C7 as amended: on the scenario-B request (CONNECT, port 443, ip 0.0.0.1, empty user-id,
domain `example.com`) the bytes written by `handle` are exactly `0, 90, 0, 0, 0, 0, 0, 0`:
the port field of the grant reply is the bound port 0, not the requested port. -/
theorem C7_scenarioB_reply_is_wildcard_grant :
    (Socks4a.handle
        { input := [1, 1, 0xBB, 0, 0, 0, 1, 0] ++ str "example.com" ++ [0],
          output := [], werr := none }).conn.output = [0, 90, 0, 0, 0, 0, 0, 0] := by
  decide

end Socks2conn

/-! ## Lemmas on the SOCKS5 decoder -/

namespace Socks2conn

theorem socks5_marshal_wildcard (code : Nat) :
    Socks5.reply.marshal
        { resCode := code, addressType := Socks5.ipv4, bindAddr := str "0.0.0.0", bindPort := 0 } =
      .ok [5, code, 0, 1, 0, 0, 0, 0, 0, 0] := by
  simp only [Socks5.reply.marshal, parseIP_wildcard_to4, if_true]
  rfl

theorem socks5_sendFailure_ok (c : Conn) (code : Nat) (h : c.werr = none) :
    Socks5.sendFailure c code =
      (none, { c with output := c.output ++ [5, code, 0, 1, 0, 0, 0, 0, 0, 0] }) := by
  simp only [Socks5.sendFailure, socks5_marshal_wildcard]
  exact write_ok c _ h

theorem socks5_methodsLoop_mem (c : Conn) (ms : Bytes) (hw : c.werr = none) (h : 0 ∈ ms) :
    Socks5.methodsLoop c ms = some (none, { c with output := c.output ++ [5, 0] }) := by
  induction ms with
  | nil => simp at h
  | cons m ms ih =>
    by_cases hm : m = 0
    · simp [Socks5.methodsLoop, Socks5.noAuthMethodRequired, Socks5.socksServerVersion, hm,
        Conn.write, hw]
    · have h1 : 0 ∈ ms := by
        rcases List.mem_cons.mp h with e | e
        · exact absurd e.symm hm
        · exact e
      simp [Socks5.methodsLoop, Socks5.noAuthMethodRequired, hm, ih h1]

theorem socks5_methodsLoop_not_mem (c : Conn) (ms : Bytes) (h : 0 ∉ ms) :
    Socks5.methodsLoop c ms = none := by
  induction ms with
  | nil => rfl
  | cons m ms ih =>
    have hm : m ≠ 0 := fun e => h (by simp [e])
    have h1 : 0 ∉ ms := fun e => h (by simp [e])
    simp [Socks5.methodsLoop, Socks5.noAuthMethodRequired, hm, ih h1]

theorem socks5_methodsLoop_success (c c1 : Conn) (ms : Bytes)
    (h : Socks5.methodsLoop c ms = some (none, c1)) :
    c.werr = none ∧ c1 = { c with output := c.output ++ [5, 0] } := by
  induction ms with
  | nil => simp [Socks5.methodsLoop] at h
  | cons m ms ih =>
    by_cases hm : m = 0
    · cases hw : c.werr with
      | some e =>
        simp [Socks5.methodsLoop, Socks5.noAuthMethodRequired, hm, Conn.write, hw] at h
      | none =>
        simp [Socks5.methodsLoop, Socks5.noAuthMethodRequired, Socks5.socksServerVersion, hm,
          Conn.write, hw] at h
        exact ⟨rfl, h.symm⟩
    · simp [Socks5.methodsLoop, Socks5.noAuthMethodRequired, hm] at h
      exact ih h

/-- A successful `handleHandshake` has written exactly the two bytes `5, 0` on a connection
that accepts writes. -/
theorem socks5_handleHandshake_success (c c1 : Conn)
    (h : Socks5.handleHandshake c = (none, c1)) :
    c1.werr = none ∧ c1.output = c.output ++ [5, 0] := by
  unfold Socks5.handleHandshake at h
  have o1 := readFull_output c 1
  have w1 := readFull_werr c 1
  cases hr1 : readFull c 1 with
  | mk r1 ca =>
    rw [hr1] at h o1 w1
    cases r1 with
    | none => simp at h
    | some n =>
      simp only at h
      have o2 := readFull_output ca (n.getD 0 0)
      have w2 := readFull_werr ca (n.getD 0 0)
      cases hr2 : readFull ca (n.getD 0 0) with
      | mk r2 cb =>
        rw [hr2] at h o2 w2
        cases r2 with
        | none => simp at h
        | some ms =>
          simp only at h
          cases hl : Socks5.methodsLoop cb ms with
          | some r =>
            rw [hl] at h
            simp only at h
            rw [h] at hl
            obtain ⟨hw, hc⟩ := socks5_methodsLoop_success cb c1 ms hl
            subst hc
            simp only at o1 o2
            exact ⟨hw, by simp [o2, o1]⟩
          | none =>
            rw [hl] at h
            simp only [Conn.write] at h
            split at h <;> simp at h

theorem readFull_frame (c : Conn) (k : Nat) : (readFull c k).2.frame c := by
  unfold readFull; split <;> exact ⟨rfl, rfl⟩

/-- `parseRequest` of SOCKS5 writes nothing and leaves the write side as it was. -/
theorem socks5_parseRequest_frame (c : Conn) : (Socks5.parseRequest c).2.frame c := by
  unfold Socks5.parseRequest
  have o1 := readFull_frame c 4
  cases hr1 : readFull c 4 with
  | mk r1 ca =>
    rw [hr1] at o1
    cases r1 with
    | none => exact o1
    | some buf =>
      simp only
      have key : ∀ (p : Except Error Bytes × Conn), p.2.frame c →
          (match p with
            | (.error e, c) => ((.error e, c) : Except Error Socks5.request × Conn)
            | (.ok destHost, c) =>
              match readFull c 2 with
              | (none, c) => (.error "could not read dest port (in request header)", c)
              | (some portBuf, c) =>
                (.ok { cmd := buf.getD 1 0, addressType := buf.getD 3 0, destHost := destHost,
                       destPort := Uint16 portBuf }, c)).2.frame c := by
        intro p hp
        obtain ⟨r, cc⟩ := p
        cases r with
        | error e => exact hp
        | ok d =>
          simp only
          have o := readFull_frame cc 2
          cases hr : readFull cc 2 with
          | mk r2 cd =>
            rw [hr] at o
            cases r2 <;> exact o.trans hp
      apply key
      split_ifs
      · have o := readFull_frame ca 4
        cases hr : readFull ca 4 with
        | mk r cb => rw [hr] at o; cases r <;> exact o.trans o1
      · have o := readFull_frame ca 1
        cases hr : readFull ca 1 with
        | mk r cb =>
          rw [hr] at o
          cases r with
          | none => exact o.trans o1
          | some l =>
            simp only
            have o' := readFull_frame cb (l.getD 0 0)
            cases hr' : readFull cb (l.getD 0 0) with
            | mk r' cc => rw [hr'] at o'; cases r' <;> exact (o'.trans o).trans o1
      · have o := readFull_frame ca 16
        cases hr : readFull ca 16 with
        | mk r cb => rw [hr] at o; cases r <;> exact o.trans o1
      · exact o1

/-- The non-CONNECT path of the SOCKS5 `handle`. -/
theorem socks5_handle_non_connect (c c1 c2 : Conn) (req : Socks5.request)
    (hh : Socks5.handleHandshake c = (none, c1))
    (hp : Socks5.parseRequest c1 = (.ok req, c2)) (hcmd : req.cmd ≠ Socks5.connect) :
    Socks5.handle c =
      { addr := [], err := some ("inacceptable command: " ++ toString req.cmd),
        conn := { c2 with output := c.output ++ [5, 0] ++ [5, 7, 0, 1, 0, 0, 0, 0, 0, 0] } } := by
  obtain ⟨hw1, ho1⟩ := socks5_handleHandshake_success c c1 hh
  have hf := socks5_parseRequest_frame c1
  rw [hp] at hf
  have hw2 : c2.werr = none := hf.2.trans hw1
  have ho2 : c2.output = c.output ++ [5, 0] := hf.1.trans ho1
  simp only [Socks5.handle, hh, hp, hcmd, ne_eq, not_false_eq_true, if_true,
    socks5_sendFailure_ok c2 _ hw2, ho2, Socks5.commandNotSupported]

/-- The CONNECT path of the SOCKS5 `handle`. -/
theorem socks5_handle_connect (c c1 c2 : Conn) (req : Socks5.request)
    (hh : Socks5.handleHandshake c = (none, c1))
    (hp : Socks5.parseRequest c1 = (.ok req, c2)) (hcmd : req.cmd = Socks5.connect) :
    Socks5.handle c =
      { addr := JoinHostPort req.destHost (Itoa req.destPort), err := none,
        conn := { c2 with output := c.output ++ [5, 0] ++ [5, 0, 0, 1, 0, 0, 0, 0, 0, 0] } } := by
  obtain ⟨hw1, ho1⟩ := socks5_handleHandshake_success c c1 hh
  have hf := socks5_parseRequest_frame c1
  rw [hp] at hf
  have hw2 : c2.werr = none := hf.2.trans hw1
  have ho2 : c2.output = c.output ++ [5, 0] := hf.1.trans ho1
  simp only [Socks5.handle, hh, hp, hcmd, ne_eq, not_true_eq_false, if_false,
    socks5_marshal_wildcard, write_ok c2 _ hw2, ho2, Socks5.succeeded]

/-- The handshake on a complete method list, on a connection that accepts writes. -/
theorem socks5_handleHandshake_eval (ms left out : Bytes) :
    Socks5.handleHandshake { input := ms.length :: ms ++ left, output := out, werr := none } =
      if 0 ∈ ms then (none, { input := left, output := out ++ [5, 0], werr := none })
      else (some "no auth method is accepted",
        { input := left, output := out ++ [5, 255], werr := none }) := by
  have r1 := readFull_append [ms.length] (ms ++ left) out none
  have r2 := readFull_append ms left out none
  simp only [List.length_cons, List.length_nil, List.singleton_append, Nat.zero_add] at r1
  unfold Socks5.handleHandshake
  rw [show ms.length :: ms ++ left = ms.length :: (ms ++ left) from rfl, r1]
  simp only [List.getD_cons_zero, r2]
  by_cases h : 0 ∈ ms
  · rw [socks5_methodsLoop_mem _ ms rfl h]
    simp [h]
  · rw [socks5_methodsLoop_not_mem _ ms h]
    simp [h, Conn.write, Socks5.socksServerVersion, Socks5.noAcceptableMethod]

end Socks2conn

/-! ## SOCKS5: claims -/

namespace Socks2conn

/-- `parseRequest` of SOCKS5 on a complete domain-name request. -/
theorem socks5_parseRequest_domain (v cmd rsv hi lo : Nat) (h left out : Bytes)
    (w : Option Error) :
    Socks5.parseRequest
        { input := [v, cmd, rsv, 3, h.length] ++ h ++ [hi, lo] ++ left, output := out, werr := w } =
      (.ok { cmd := cmd, addressType := 3, destHost := h, destPort := Uint16 [hi, lo] },
        { input := left, output := out, werr := w }) := by
  have r1 := readFull_append [v, cmd, rsv, 3] (h.length :: (h ++ hi :: lo :: left)) out w
  have r2 := readFull_append [h.length] (h ++ hi :: lo :: left) out w
  have r3 := readFull_append h (hi :: lo :: left) out w
  have r4 := readFull_append [hi, lo] left out w
  simp only [List.length_cons, List.length_nil, List.singleton_append, Nat.zero_add,
    List.cons_append, List.nil_append] at r1 r2 r4
  have e : [v, cmd, rsv, 3, h.length] ++ h ++ [hi, lo] ++ left =
      v :: cmd :: rsv :: 3 :: h.length :: (h ++ hi :: lo :: left) := by simp
  rw [e]
  unfold Socks5.parseRequest
  rw [r1]
  simp only [List.getD_cons_zero, List.getD_cons_succ, Socks5.ipv4, Socks5.domainname,
    OfNat.ofNat_ne_one, if_false, if_true, r2, r3, r4]

/-- C3: when the SOCKS5 handshake succeeds and `parseRequest` accepts the request with a
command other than CONNECT, the handshake has written the auth reply `5, 0`, and `handle`
then writes exactly `5, 7, 0, 1, 0, 0, 0, 0, 0, 0` and returns a non-nil error with the
empty destination string. -/
theorem C3_socks5_non_connect_rejected (c c1 c2 : Conn) (req : Socks5.request)
    (hh : Socks5.handleHandshake c = (none, c1))
    (hp : Socks5.parseRequest c1 = (.ok req, c2)) (hcmd : req.cmd ≠ Socks5.connect) :
    c1.output = c.output ++ [5, 0] ∧
      (Socks5.handle c).conn.output = c1.output ++ [5, 7, 0, 1, 0, 0, 0, 0, 0, 0] ∧
      (Socks5.handle c).err ≠ none ∧
      (Socks5.handle c).addr = [] := by
  have h1 := (socks5_handleHandshake_success c c1 hh).2
  rw [socks5_handle_non_connect c c1 c2 req hh hp hcmd, h1]
  exact ⟨rfl, rfl, by simp, rfl⟩

/-- Witness of C3: methods `[0]`, then a BIND request for 93.184.216.34 port 80. -/
theorem C3_socks5_non_connect_rejected_witness :
    ([] : Bytes) ++ [5, 0] = [] ++ [5, 0] ∧
      (Socks5.handle
        { input := [1, 0, 5, 2, 0, 1, 93, 184, 216, 34, 0, 80], output := [],
          werr := none }).conn.output = [] ++ [5, 0] ++ [5, 7, 0, 1, 0, 0, 0, 0, 0, 0] ∧
      (Socks5.handle
        { input := [1, 0, 5, 2, 0, 1, 93, 184, 216, 34, 0, 80], output := [],
          werr := none }).err ≠ none ∧
      (Socks5.handle
        { input := [1, 0, 5, 2, 0, 1, 93, 184, 216, 34, 0, 80], output := [],
          werr := none }).addr = [] :=
  C3_socks5_non_connect_rejected
    { input := [1, 0, 5, 2, 0, 1, 93, 184, 216, 34, 0, 80], output := [], werr := none }
    { input := [5, 2, 0, 1, 93, 184, 216, 34, 0, 80], output := [] ++ [5, 0], werr := none }
    { input := [], output := [] ++ [5, 0], werr := none }
    { cmd := 2, addressType := 1, destHost := str "93.184.216.34", destPort := 80 }
    (by decide) (by decide) (by decide)

/-- C4: for every list `ms` of method bytes announced by the count byte `ms.length` and
fully present in the input, on a connection that accepts writes, `handleHandshake` consumes
the count and the methods, writes exactly the two bytes `5, m` with `m = 0` when `0` occurs in
`ms` and `m = 255` otherwise (also for the empty list), and returns a nil error if and only if
`0` occurs in `ms`. -/
theorem C4_socks5_handshake_reply (ms left out : Bytes) :
    (Socks5.handleHandshake
        { input := ms.length :: ms ++ left, output := out, werr := none }).2.output =
      out ++ [5, if 0 ∈ ms then 0 else 255] ∧
    (Socks5.handleHandshake
        { input := ms.length :: ms ++ left, output := out, werr := none }).2.input = left ∧
    ((Socks5.handleHandshake
        { input := ms.length :: ms ++ left, output := out, werr := none }).1 = none ↔ 0 ∈ ms) := by
  rw [socks5_handleHandshake_eval]
  by_cases h : 0 ∈ ms <;> simp [h]

/-- C5: when `0` does not occur in the offered methods `ms`, on a connection that accepts
writes, `HandleConnection` consumes exactly the count byte and the `ms.length` method bytes
(everything after them is left unread), writes exactly `5, 255`, and returns an error with
the empty destination string. -/
theorem C5_socks5_no_acceptable_method (ms left out : Bytes) (h : 0 ∉ ms) :
    (Socks5.HandleConnection
        { input := ms.length :: ms ++ left, output := out, werr := none }).conn.input =
      (ms.length :: ms ++ left).drop (1 + ms.length) ∧
    Socks5.HandleConnection { input := ms.length :: ms ++ left, output := out, werr := none } =
      { addr := [], err := some "no auth method is accepted",
        conn := { input := left, output := out ++ [5, 255], werr := none } } := by
  have e : Socks5.HandleConnection
      { input := ms.length :: ms ++ left, output := out, werr := none } =
      { addr := [], err := some "no auth method is accepted",
        conn := { input := left, output := out ++ [5, 255], werr := none } } := by
    simp only [Socks5.HandleConnection, Socks5.handle, socks5_handleHandshake_eval, h, if_false]
  refine ⟨?_, e⟩
  rw [e]
  simp [Nat.add_comm 1]

/-- Witness of C5: methods `[1, 2]` (GSSAPI, username/password) followed by a request. -/
theorem C5_socks5_no_acceptable_method_witness :
    0 ∉ ([1, 2] : Bytes) ∧
    ((Socks5.HandleConnection
        { input := ([1, 2] : Bytes).length :: [1, 2] ++ [5, 1, 0, 1, 1, 2, 3, 4, 0, 80],
          output := [], werr := none }).conn.input =
      (([1, 2] : Bytes).length :: [1, 2] ++ [5, 1, 0, 1, 1, 2, 3, 4, 0, 80]).drop
        (1 + ([1, 2] : Bytes).length) ∧
    Socks5.HandleConnection
        { input := ([1, 2] : Bytes).length :: [1, 2] ++ [5, 1, 0, 1, 1, 2, 3, 4, 0, 80],
          output := [], werr := none } =
      { addr := [], err := some "no auth method is accepted",
        conn := { input := [5, 1, 0, 1, 1, 2, 3, 4, 0, 80], output := [] ++ [5, 255],
                  werr := none } }) :=
  ⟨by decide, C5_socks5_no_acceptable_method [1, 2] [5, 1, 0, 1, 1, 2, 3, 4, 0, 80] []
    (by decide)⟩

/-- C9: when the SOCKS5 handshake succeeds and `parseRequest` accepts a CONNECT request (of
any address type, host and port), the complete output of `HandleConnection` is `5, 0`
followed by exactly `5, 0, 0, 1, 0, 0, 0, 0, 0, 0`, the error is nil and the destination is
`JoinHostPort(destHost, Itoa(destPort))`; on the scenario-A input the destination is
`93.184.216.34:80`. -/
theorem C9_socks5_connect_reply_is_wildcard (c c1 c2 : Conn) (req : Socks5.request)
    (hh : Socks5.handleHandshake c = (none, c1))
    (hp : Socks5.parseRequest c1 = (.ok req, c2)) (hcmd : req.cmd = Socks5.connect) :
    (Socks5.HandleConnection c).conn.output =
        c.output ++ [5, 0] ++ [5, 0, 0, 1, 0, 0, 0, 0, 0, 0] ∧
      (Socks5.HandleConnection c).err = none ∧
      (Socks5.HandleConnection c).addr = JoinHostPort req.destHost (Itoa req.destPort) ∧
      Socks5.HandleConnection
          { input := [1, 0, 5, 1, 0, 1, 93, 184, 216, 34, 0, 80], output := [], werr := none } =
        { addr := str "93.184.216.34:80", err := none,
          conn := { input := [], output := [5, 0, 5, 0, 0, 1, 0, 0, 0, 0, 0, 0], werr := none } } := by
  refine ⟨?_, ?_, ?_, by decide⟩ <;>
    rw [Socks5.HandleConnection, socks5_handle_connect c c1 c2 req hh hp hcmd]

/-- Witness of C9: methods `[2, 0]`, then a CONNECT to the IPv6 address `2001:db8::1`
port 443. -/
theorem C9_socks5_connect_reply_is_wildcard_witness :
    (Socks5.HandleConnection
        { input := [2, 2, 0, 5, 1, 0, 4, 0x20, 1, 0xd, 0xb8, 0, 0, 0, 0, 0, 0, 0, 0, 0, 0, 0, 1,
            1, 0xBB], output := [], werr := none }).conn.output =
        [] ++ [5, 0] ++ [5, 0, 0, 1, 0, 0, 0, 0, 0, 0] ∧
      (Socks5.HandleConnection
        { input := [2, 2, 0, 5, 1, 0, 4, 0x20, 1, 0xd, 0xb8, 0, 0, 0, 0, 0, 0, 0, 0, 0, 0, 0, 1,
            1, 0xBB], output := [], werr := none }).err = none ∧
      (Socks5.HandleConnection
        { input := [2, 2, 0, 5, 1, 0, 4, 0x20, 1, 0xd, 0xb8, 0, 0, 0, 0, 0, 0, 0, 0, 0, 0, 0, 1,
            1, 0xBB], output := [], werr := none }).addr =
        JoinHostPort (str "2001:db8::1") (Itoa 443) ∧
      Socks5.HandleConnection
          { input := [1, 0, 5, 1, 0, 1, 93, 184, 216, 34, 0, 80], output := [], werr := none } =
        { addr := str "93.184.216.34:80", err := none,
          conn := { input := [], output := [5, 0, 5, 0, 0, 1, 0, 0, 0, 0, 0, 0], werr := none } } :=
  C9_socks5_connect_reply_is_wildcard
    { input := [2, 2, 0, 5, 1, 0, 4, 0x20, 1, 0xd, 0xb8, 0, 0, 0, 0, 0, 0, 0, 0, 0, 0, 0, 1,
        1, 0xBB], output := [], werr := none }
    { input := [5, 1, 0, 4, 0x20, 1, 0xd, 0xb8, 0, 0, 0, 0, 0, 0, 0, 0, 0, 0, 0, 1, 1, 0xBB],
      output := [5, 0], werr := none }
    { input := [], output := [5, 0], werr := none }
    { cmd := 1, addressType := 4, destHost := str "2001:db8::1", destPort := 443 }
    (by decide) (by decide) (by decide)

end Socks2conn

/-! ## Parse failures and version dispatch -/

namespace Socks2conn

/-- The parse-error path of the SOCKS4a `handle`: nothing is written. -/
theorem socks4a_handle_parse_error (c c1 : Conn) (e : Error)
    (hp : Socks4a.parseRequest c = (.error e, c1)) :
    Socks4a.handle c = { addr := [], err := some e, conn := c1 } := by
  simp only [Socks4a.handle, hp]

theorem socks4a_readUserId_no_nul (u : Bytes) (h : 0 ∉ u) : Socks4a.readUserId u = none := by
  induction u with
  | nil => rfl
  | cons b u ih =>
    have hb : b ≠ 0 := fun e => h (by simp [e])
    have hu : 0 ∉ u := fun e => h (by simp [e])
    simp [Socks4a.readUserId, hb, ih hu]

theorem socks4a_readDomainName_no_nul (d : Bytes) (h : 0 ∉ d) :
    Socks4a.readDomainName d = none := by
  induction d with
  | nil => rfl
  | cons b d ih =>
    have hb : b ≠ 0 := fun e => h (by simp [e])
    have hd : 0 ∉ d := fun e => h (by simp [e])
    simp [Socks4a.readDomainName, hb, ih hd]

/-- `parseRequest` of SOCKS4a fails on an input that ends before the request is complete. -/
theorem socks4a_parseRequest_truncated (input out : Bytes) (w : Option Error)
    (h : input.length < 7 ∨
      (∃ hdr u : Bytes, hdr.length = 7 ∧ 0 ∉ u ∧ input = hdr ++ u) ∨
      (∃ (cmd p1 p2 x : Nat) (u d : Bytes), x ≠ 0 ∧ 0 ∉ u ∧ 0 ∉ d ∧
        input = [cmd, p1, p2, 0, 0, 0, x] ++ u ++ [0] ++ d)) :
    ∃ e, Socks4a.parseRequest { input := input, output := out, werr := w } =
      (.error e, { input := [], output := out, werr := w }) := by
  rcases h with h | ⟨hdr, u, hl, hu, rfl⟩ | ⟨cmd, p1, p2, x, u, d, hx, hu, hd, rfl⟩
  · refine ⟨"could not read request header", ?_⟩
    have : ¬ (7 ≤ input.length) := by omega
    simp [Socks4a.parseRequest, readFull, this]
  · refine ⟨"could not read (a byte) from the userid", ?_⟩
    have hr := readFull_append hdr u out w
    rw [hl] at hr
    simp only [Socks4a.parseRequest, hr, socks4a_readUserId_no_nul u hu]
  · refine ⟨"could not read (a byte) from the domain name", ?_⟩
    have e : [cmd, p1, p2, 0, 0, 0, x] ++ u ++ [0] ++ d =
        [cmd, p1, p2, 0, 0, 0, x] ++ (u ++ 0 :: d) := by simp
    rw [e]
    have hr := readFull_append [cmd, p1, p2, 0, 0, 0, x] (u ++ 0 :: d) out w
    simp only [List.length_cons, List.length_nil] at hr
    simp only [Socks4a.parseRequest, hr, socks4a_readUserId_append _ _ hu,
      socks4a_readDomainName_no_nul d hd]
    simp [Socks4a.isDomainUnresolved, hx]

/-- C12: on a SOCKS4a input that ends before the request is complete (fewer than seven
header bytes; or seven header bytes and a user-id without NUL; or an IPv4 field `0.0.0.x`
with `x ≠ 0`, a NUL-terminated user-id and a domain without NUL), `HandleConnection` writes
nothing and returns a non-nil error with the empty destination. -/
theorem C12_socks4a_truncated_no_reply (input out : Bytes) (w : Option Error)
    (h : input.length < 7 ∨
      (∃ hdr u : Bytes, hdr.length = 7 ∧ 0 ∉ u ∧ input = hdr ++ u) ∨
      (∃ (cmd p1 p2 x : Nat) (u d : Bytes), x ≠ 0 ∧ 0 ∉ u ∧ 0 ∉ d ∧
        input = [cmd, p1, p2, 0, 0, 0, x] ++ u ++ [0] ++ d)) :
    (Socks4a.HandleConnection { input := input, output := out, werr := w }).conn.output = out ∧
      (Socks4a.HandleConnection { input := input, output := out, werr := w }).err ≠ none ∧
      (Socks4a.HandleConnection { input := input, output := out, werr := w }).addr = [] := by
  obtain ⟨e, he⟩ := socks4a_parseRequest_truncated input out w h
  rw [Socks4a.HandleConnection, socks4a_handle_parse_error _ _ e he]
  exact ⟨rfl, by simp, rfl⟩

/-- Witness of C12: a domain request (ip 0.0.0.1, user-id `u`) whose domain `ab` has no
NUL. -/
theorem C12_socks4a_truncated_no_reply_witness :
    (Socks4a.HandleConnection
        { input := [1, 0, 80, 0, 0, 0, 1] ++ [117] ++ [0] ++ [97, 98], output := [],
          werr := none }).conn.output = [] ∧
      (Socks4a.HandleConnection
        { input := [1, 0, 80, 0, 0, 0, 1] ++ [117] ++ [0] ++ [97, 98], output := [],
          werr := none }).err ≠ none ∧
      (Socks4a.HandleConnection
        { input := [1, 0, 80, 0, 0, 0, 1] ++ [117] ++ [0] ++ [97, 98], output := [],
          werr := none }).addr = [] :=
  C12_socks4a_truncated_no_reply ([1, 0, 80, 0, 0, 0, 1] ++ [117] ++ [0] ++ [97, 98]) [] none
    (Or.inr (Or.inr ⟨1, 0, 80, 1, [117], [97, 98], by decide, by decide, by decide, rfl⟩))

/-- C13: the per-connection handler reads one byte `v`. When `v` is neither 4 nor 5 it
invokes no decoder, leaves the rest of the input unread, writes nothing, does not dial the
upstream and starts no relay; when `v` is 4 it continues with the result of the SOCKS4a
`HandleConnection` on the connection after that byte, and when `v` is 5 with the result of
the SOCKS5 `HandleConnection`. -/
theorem C13_version_dispatch (up : Server.Upstream) (v : Nat) (left out : Bytes)
    (w : Option Error) :
    (v ≠ 4 → v ≠ 5 →
      Server.serveConn up { input := v :: left, output := out, werr := w } =
        { conn := { input := left, output := out, werr := w }, decoder := none,
          dialed := false, connectHost := none, relayStarted := false }) ∧
    Server.serveConn up { input := 4 :: left, output := out, werr := w } =
      Server.tunnel up 4 (Socks4a.HandleConnection { input := left, output := out, werr := w }) ∧
    Server.serveConn up { input := 5 :: left, output := out, werr := w } =
      Server.tunnel up 5 (Socks5.HandleConnection { input := left, output := out, werr := w }) ∧
    (∀ (n : Nat) (r : Outcome), (Server.tunnel up n r).decoder = some n ∧
      (Server.tunnel up n r).conn = r.conn) := by
  have r : ∀ b : Nat, readFull { input := b :: left, output := out, werr := w } 1 =
      (some [b], { input := left, output := out, werr := w }) := by
    intro b
    have r1 := readFull_append [b] left out w
    simp only [List.length_cons, List.length_nil, List.singleton_append] at r1
    exact r1
  refine ⟨?_, ?_, ?_, ?_⟩
  · intro h4 h5
    simp only [Server.serveConn, r, List.getD_cons_zero, Server.socksVersion4,
      Server.socksVersion5, h4, h5, if_false]
  · simp only [Server.serveConn, r, List.getD_cons_zero, Server.socksVersion4, if_true]
  · simp only [Server.serveConn, r, List.getD_cons_zero, Server.socksVersion4,
      Server.socksVersion5, if_true]
    rfl
  · intro n r
    unfold Server.tunnel
    split
    · exact ⟨rfl, rfl⟩
    · split
      · exact ⟨rfl, rfl⟩
      · split
        · exact ⟨rfl, rfl⟩
        · split
          · exact ⟨rfl, rfl⟩
          · split <;> exact ⟨rfl, rfl⟩

/-- Witness of C13: first byte 6 followed by three more bytes. -/
theorem C13_version_dispatch_witness :
    (6 ≠ 4 ∧ 6 ≠ 5) ∧
    Server.serveConn { dialErr := none, writeErr := none, response := .ok 200 }
        { input := 6 :: [1, 2, 3], output := [], werr := none } =
      { conn := { input := [1, 2, 3], output := [], werr := none }, decoder := none,
        dialed := false, connectHost := none, relayStarted := false } :=
  ⟨by decide,
    (C13_version_dispatch { dialErr := none, writeErr := none, response := .ok 200 } 6
      [1, 2, 3] [] none).1 (by decide) (by decide)⟩

end Socks2conn

/-! ## Dotted-decimal text -/

namespace Socks2conn

/-- The decimal text of a byte: one, two or three digits, the first one not `0` unless the
byte is 0. -/
theorem itoa_byte (n : Nat) (hn : n < 256) : Itoa n =
    if n < 10 then [48 + n]
    else if n < 100 then [48 + n / 10, 48 + n % 10]
    else [48 + n / 100, 48 + n / 10 % 10, 48 + n % 10] := by
  interval_cases n <;> rfl

theorem parseIPv4Loop_octet_dot (n : Nat) (hn : n < 256) (first : Bool) (prev : Nat)
    (fields rest : Bytes) (hf : fields.length ≠ 3) (hr : rest ≠ []) :
    parseIPv4Loop first prev 0 0 fields (Itoa n ++ 46 :: rest) =
      parseIPv4Loop false 46 0 0 (fields ++ [n]) rest := by
  obtain ⟨c, r, rfl⟩ := List.exists_cons_of_ne_nil hr
  have key : parseIPv4Loop first prev 0 0 fields (Itoa n ++ 46 :: c :: r) =
      if fields.length = 3 then none
      else parseIPv4Loop false 46 0 0 (fields ++ [n]) (c :: r) := by
    interval_cases n <;> rfl
  rw [key, if_neg hf]

theorem parseIPv4Loop_octet_end (n : Nat) (hn : n < 256) (first : Bool) (prev : Nat)
    (fields : Bytes) :
    parseIPv4Loop first prev 0 0 fields (Itoa n) =
      if fields.length < 3 then none else some (fields ++ [n]) := by
  interval_cases n <;> rfl

theorem parseAddrScan_octet_dot (n : Nat) (hn : n < 256) (s rest : Bytes) :
    parseAddrScan s (Itoa n ++ 46 :: rest) = (parseIPv4 s).bind To16 := by
  interval_cases n <;> rfl

theorem itoa_byte_ne_nil (n : Nat) (hn : n < 256) (rest : Bytes) : Itoa n ++ rest ≠ [] := by
  rw [itoa_byte n hn]
  split_ifs <;> simp

end Socks2conn

/-! ## Literal addresses and the SOCKS5 reply -/

namespace Socks2conn

theorem putUint16_bytes (p : Nat) (hp : p < 65536) : PutUint16 p = [p / 256, p % 256] := by
  simp only [PutUint16, Nat.shiftRight_eq_div_pow]
  have : p / 2 ^ 8 % 256 = p / 256 := by omega
  rw [this]

theorem parseIP_wildcard_to16 :
    (ParseIP (str "0.0.0.0")).bind To16 =
      some [0, 0, 0, 0, 0, 0, 0, 0, 0, 0, 255, 255, 0, 0, 0, 0] := by
  decide

/-- The dotted-decimal text of four bytes parses back to them. -/
theorem parseIP_string4 (a b c d : Nat) (ha : a < 256) (hb : b < 256) (hc : c < 256)
    (hd : d < 256) :
    (ParseIP (Itoa a ++ str "." ++ Itoa b ++ str "." ++ Itoa c ++ str "." ++ Itoa d)).bind To4 =
      some [a, b, c, d] := by
  have e : Itoa a ++ str "." ++ Itoa b ++ str "." ++ Itoa c ++ str "." ++ Itoa d =
      Itoa a ++ 46 :: (Itoa b ++ 46 :: (Itoa c ++ 46 :: Itoa d)) := by
    simp [str]
  rw [e]
  have h4 : parseIPv4 (Itoa a ++ 46 :: (Itoa b ++ 46 :: (Itoa c ++ 46 :: Itoa d))) =
      some [a, b, c, d] := by
    unfold parseIPv4
    rw [parseIPv4Loop_octet_dot a ha true 0 [] _ (by simp) (itoa_byte_ne_nil b hb _),
      parseIPv4Loop_octet_dot b hb false 46 ([] ++ [a]) _ (by simp) (itoa_byte_ne_nil c hc _),
      parseIPv4Loop_octet_dot c hc false 46 ([] ++ [a] ++ [b]) _ (by simp)
        (by simpa using itoa_byte_ne_nil d hd []),
      parseIPv4Loop_octet_end d hd false 46]
    rfl
  rw [ParseIP, parseAddrScan_octet_dot a ha, h4]
  rfl

theorem ipString_four (a b c d : Nat) :
    IPString [a, b, c, d] = Itoa a ++ str "." ++ Itoa b ++ str "." ++ Itoa c ++ str "." ++ Itoa d :=
  rfl

/-- `parseRequest` of SOCKS5 on a complete IPv4 request. -/
theorem socks5_parseRequest_ipv4 (v cmd rsv a b c d hi lo : Nat) (left out : Bytes)
    (w : Option Error) :
    Socks5.parseRequest
        { input := [v, cmd, rsv, 1, a, b, c, d, hi, lo] ++ left, output := out, werr := w } =
      (.ok { cmd := cmd, addressType := 1, destHost := IPString [a, b, c, d],
             destPort := Uint16 [hi, lo] },
        { input := left, output := out, werr := w }) := by
  have r1 := readFull_append [v, cmd, rsv, 1] (a :: b :: c :: d :: hi :: lo :: left) out w
  have r2 := readFull_append [a, b, c, d] (hi :: lo :: left) out w
  have r3 := readFull_append [hi, lo] left out w
  simp only [List.length_cons, List.length_nil, List.cons_append, List.nil_append] at r1 r2 r3
  unfold Socks5.parseRequest
  simp only [List.cons_append, List.nil_append, r1]
  simp only [List.getD_cons_zero, List.getD_cons_succ, Socks5.ipv4, if_true, r2, r3]

/-- `parseRequest` of SOCKS5 on a complete IPv6 request. -/
theorem socks5_parseRequest_ipv6 (v cmd rsv hi lo : Nat) (addr left out : Bytes)
    (w : Option Error) (hl : addr.length = 16) :
    Socks5.parseRequest
        { input := [v, cmd, rsv, 4] ++ addr ++ [hi, lo] ++ left, output := out, werr := w } =
      (.ok { cmd := cmd, addressType := 4, destHost := IPString addr,
             destPort := Uint16 [hi, lo] },
        { input := left, output := out, werr := w }) := by
  have r1 := readFull_append [v, cmd, rsv, 4] (addr ++ hi :: lo :: left) out w
  have r2 := readFull_append addr (hi :: lo :: left) out w
  have r3 := readFull_append [hi, lo] left out w
  simp only [List.length_cons, List.length_nil, List.cons_append, List.nil_append,
    Nat.zero_add, Nat.reduceAdd] at r1 r3
  rw [hl] at r2
  have e : [v, cmd, rsv, 4] ++ addr ++ [hi, lo] ++ left =
      v :: cmd :: rsv :: 4 :: (addr ++ hi :: lo :: left) := by simp
  rw [e]
  unfold Socks5.parseRequest
  rw [r1]
  simp only [List.getD_cons_zero, List.getD_cons_succ, Socks5.ipv4, Socks5.domainname,
    Socks5.ipv6, OfNat.ofNat_ne_one, if_false, if_true, r2, r3]
  simp [r3]

/-- `parseRequest` of SOCKS4a on a complete request with a literal IPv4 address. -/
theorem socks4a_parseRequest_literal (cmd p1 p2 a b c d : Nat) (userid left out : Bytes)
    (w : Option Error) (hu : 0 ∉ userid) (hip : ¬ (a = 0 ∧ b = 0 ∧ c = 0 ∧ d ≠ 0)) :
    Socks4a.parseRequest
        { input := [cmd, p1, p2, a, b, c, d] ++ userid ++ [0] ++ left, output := out, werr := w } =
      (.ok { cmd := cmd, destHost := IPString [a, b, c, d], destPort := Uint16 [p1, p2] },
        { input := left, output := out, werr := w }) := by
  have e : [cmd, p1, p2, a, b, c, d] ++ userid ++ [0] ++ left =
      [cmd, p1, p2, a, b, c, d] ++ (userid ++ 0 :: left) := by simp
  rw [e]
  have hr := readFull_append [cmd, p1, p2, a, b, c, d] (userid ++ 0 :: left) out w
  simp only [List.length_cons, List.length_nil] at hr
  simp only [Socks4a.parseRequest, hr, socks4a_readUserId_append _ _ hu]
  have hd : Socks4a.isDomainUnresolved (List.take 4 (List.drop 3 [cmd, p1, p2, a, b, c, d])) =
      false := by
    simp only [Socks4a.isDomainUnresolved, List.drop, List.take, List.getD_cons_zero,
      List.getD_cons_succ]
    by_cases h0 : a = 0 ∧ b = 0 ∧ c = 0
    · obtain ⟨rfl, rfl, rfl⟩ := h0
      have : d = 0 := by
        by_contra hne
        exact hip ⟨rfl, rfl, rfl, hne⟩
      simp [this]
    · have : ([a, b, c] == [0, 0, 0]) = false := by
        apply beq_false_of_ne
        intro hh
        injection hh with h1 h2
        injection h2 with h2 h3
        injection h3 with h3 _
        exact h0 ⟨h1, h2, h3⟩
      simp [this]
  rw [hd]
  simp

end Socks2conn

namespace Socks2conn

/-- C14: for every result code `code`, every port `p` below 65536 and the bound address
`0.0.0.0`, `marshal` of the SOCKS5 reply succeeds for each of the address types 1, 3 and 4;
its output is `5, code, 0, addressType`, then the address part (4 zero bytes; the length byte
7 and the 7 bytes of the text `0.0.0.0`; the 16 bytes of the IPv4-mapped form of 0.0.0.0),
then `p / 256, p % 256`, and reading these two bytes as a big-endian number gives `p`
back. -/
theorem C14_socks5_marshal_fields (code p : Nat) (hp : p < 65536) :
    Socks5.reply.marshal
        { resCode := code, addressType := 1, bindAddr := str "0.0.0.0", bindPort := p } =
      .ok ([5, code, 0, 1] ++ [0, 0, 0, 0] ++ [p / 256, p % 256]) ∧
    Socks5.reply.marshal
        { resCode := code, addressType := 3, bindAddr := str "0.0.0.0", bindPort := p } =
      .ok ([5, code, 0, 3] ++ ([(str "0.0.0.0").length] ++ str "0.0.0.0") ++ [p / 256, p % 256]) ∧
    Socks5.reply.marshal
        { resCode := code, addressType := 4, bindAddr := str "0.0.0.0", bindPort := p } =
      .ok ([5, code, 0, 4] ++ [0, 0, 0, 0, 0, 0, 0, 0, 0, 0, 255, 255, 0, 0, 0, 0] ++
        [p / 256, p % 256]) ∧
    Uint16 [p / 256, p % 256] = p := by
  have hput := putUint16_bytes p hp
  refine ⟨?_, ?_, ?_, ?_⟩
  · simp only [Socks5.reply.marshal, Socks5.ipv4, if_true, parseIP_wildcard_to4, hput]
    rfl
  · simp only [Socks5.reply.marshal, Socks5.ipv4, Socks5.domainname, hput]
    rfl
  · simp only [Socks5.reply.marshal, Socks5.ipv4, Socks5.domainname, Socks5.ipv6,
      parseIP_wildcard_to16, hput]
    rfl
  · rw [uint16_bytes _ _ (by omega) (by omega)]
    omega

/-- Witness of C14: result code 8 and port 8080. -/
theorem C14_socks5_marshal_fields_witness :
    Socks5.reply.marshal
        { resCode := 8, addressType := 1, bindAddr := str "0.0.0.0", bindPort := 8080 } =
      .ok ([5, 8, 0, 1] ++ [0, 0, 0, 0] ++ [8080 / 256, 8080 % 256]) ∧
    Socks5.reply.marshal
        { resCode := 8, addressType := 3, bindAddr := str "0.0.0.0", bindPort := 8080 } =
      .ok ([5, 8, 0, 3] ++ ([(str "0.0.0.0").length] ++ str "0.0.0.0") ++
        [8080 / 256, 8080 % 256]) ∧
    Socks5.reply.marshal
        { resCode := 8, addressType := 4, bindAddr := str "0.0.0.0", bindPort := 8080 } =
      .ok ([5, 8, 0, 4] ++ [0, 0, 0, 0, 0, 0, 0, 0, 0, 0, 255, 255, 0, 0, 0, 0] ++
        [8080 / 256, 8080 % 256]) ∧
    Uint16 [8080 / 256, 8080 % 256] = 8080 :=
  C14_socks5_marshal_fields 8 8080 (by decide)

/-- C15: for bytes `a`, `b`, `c`, `d` carried as a literal IPv4 address, the host decoded by
the SOCKS5 `parseRequest` (address type 1) and by the SOCKS4a `parseRequest` (IPv4 field not
of the form `0.0.0.x` with `x ≠ 0`) is the text `a.b.c.d`, each byte written by `Itoa`, that
is in decimal with one, two or three digits and no leading zero; and `ParseIP` of that text
followed by `To4` gives the four bytes back. -/
theorem C15_ipv4_literal_roundtrip (a b c d : Nat) (ha : a < 256) (hb : b < 256)
    (hc : c < 256) (hd : d < 256) :
    (∀ (v cmd rsv hi lo : Nat) (left out : Bytes) (w : Option Error),
      (Socks5.parseRequest
          { input := [v, cmd, rsv, 1, a, b, c, d, hi, lo] ++ left, output := out,
            werr := w }).1 =
        .ok { cmd := cmd, addressType := 1,
              destHost := Itoa a ++ str "." ++ Itoa b ++ str "." ++ Itoa c ++ str "." ++ Itoa d,
              destPort := Uint16 [hi, lo] }) ∧
    (∀ (cmd p1 p2 : Nat) (userid left out : Bytes) (w : Option Error),
      0 ∉ userid → ¬ (a = 0 ∧ b = 0 ∧ c = 0 ∧ d ≠ 0) →
      (Socks4a.parseRequest
          { input := [cmd, p1, p2, a, b, c, d] ++ userid ++ [0] ++ left, output := out,
            werr := w }).1 =
        .ok { cmd := cmd,
              destHost := Itoa a ++ str "." ++ Itoa b ++ str "." ++ Itoa c ++ str "." ++ Itoa d,
              destPort := Uint16 [p1, p2] }) ∧
    (ParseIP (Itoa a ++ str "." ++ Itoa b ++ str "." ++ Itoa c ++ str "." ++ Itoa d)).bind To4 =
      some [a, b, c, d] ∧
    (∀ n ∈ [a, b, c, d], Itoa n =
      if n < 10 then [48 + n]
      else if n < 100 then [48 + n / 10, 48 + n % 10]
      else [48 + n / 100, 48 + n / 10 % 10, 48 + n % 10]) := by
  refine ⟨?_, ?_, parseIP_string4 a b c d ha hb hc hd, ?_⟩
  · intro v cmd rsv hi lo left out w
    rw [socks5_parseRequest_ipv4, ipString_four]
  · intro cmd p1 p2 userid left out w hu hip
    rw [socks4a_parseRequest_literal cmd p1 p2 a b c d userid left out w hu hip, ipString_four]
  · intro n hn
    have hlt : n < 256 := by
      simp only [List.mem_cons, List.mem_singleton, List.not_mem_nil, or_false] at hn
      rcases hn with rfl | rfl | rfl | rfl <;> assumption
    exact itoa_byte n hlt

/-- Witness of C15: the address 93.184.216.34 in a SOCKS5 request, the address 10.1.2.3 in a
SOCKS4a request, and the text 93.184.216.34 parsed back. -/
theorem C15_ipv4_literal_roundtrip_witness :
    (Socks5.parseRequest
        { input := [5, 1, 0, 1, 93, 184, 216, 34, 0, 80] ++ [], output := [],
          werr := none }).1 =
      .ok { cmd := 1, addressType := 1,
            destHost := Itoa 93 ++ str "." ++ Itoa 184 ++ str "." ++ Itoa 216 ++ str "." ++ Itoa 34,
            destPort := Uint16 [0, 80] } ∧
    (Socks4a.parseRequest
        { input := [1, 0, 80, 10, 1, 2, 3] ++ str "bob" ++ [0] ++ [], output := [],
          werr := none }).1 =
      .ok { cmd := 1,
            destHost := Itoa 10 ++ str "." ++ Itoa 1 ++ str "." ++ Itoa 2 ++ str "." ++ Itoa 3,
            destPort := Uint16 [0, 80] } ∧
    Itoa 93 ++ str "." ++ Itoa 184 ++ str "." ++ Itoa 216 ++ str "." ++ Itoa 34 =
      str "93.184.216.34" ∧
    (ParseIP (Itoa 93 ++ str "." ++ Itoa 184 ++ str "." ++ Itoa 216 ++ str "." ++ Itoa 34)).bind
      To4 = some [93, 184, 216, 34] :=
  ⟨(C15_ipv4_literal_roundtrip 93 184 216 34 (by decide) (by decide) (by decide)
      (by decide)).1 5 1 0 0 80 [] [] none,
    (C15_ipv4_literal_roundtrip 10 1 2 3 (by decide) (by decide) (by decide)
      (by decide)).2.1 1 0 80 (str "bob") [] [] none (by decide) (by decide),
    by decide,
    (C15_ipv4_literal_roundtrip 93 184 216 34 (by decide) (by decide) (by decide)
      (by decide)).2.2.1⟩

/-- C16 as stated fails: for the SOCKS5 request of address type 4 whose sixteen address bytes
are the IPv4-mapped address `::ffff:1.2.3.4`, the decoded host is the dotted-decimal text
`1.2.3.4`, not the colon-hexadecimal text of the sixteen bytes. -/
theorem C16_ipv4_mapped_is_dotted :
    (Socks5.parseRequest
        { input := [5, 1, 0, 4] ++ [0, 0, 0, 0, 0, 0, 0, 0, 0, 0, 0xFF, 0xFF, 1, 2, 3, 4] ++
            [0, 80], output := [], werr := none }).1 =
      .ok { cmd := 1, addressType := 4, destHost := str "1.2.3.4", destPort := 80 } ∧
    string6 [0, 0, 0, 0, 0, 0, 0, 0, 0, 0, 0xFF, 0xFF, 1, 2, 3, 4] = str "::ffff:102:304" ∧
    str "1.2.3.4" ≠ string6 [0, 0, 0, 0, 0, 0, 0, 0, 0, 0, 0xFF, 0xFF, 1, 2, 3, 4] := by
  decide

/-- C16 as amended: for a SOCKS5 request of address type 4 and sixteen address bytes, the
decoded host is the colon-hexadecimal text of the sixteen bytes (`string6`) unless the
address is IPv4-mapped (first ten bytes zero, then `0xFF 0xFF`); for an IPv4-mapped address
it is the dotted-decimal text of the last four bytes. -/
theorem C16_socks5_ipv6_host (v cmd rsv hi lo : Nat) (addr left out : Bytes)
    (w : Option Error) (hl : addr.length = 16) :
    Socks5.parseRequest
        { input := [v, cmd, rsv, 4] ++ addr ++ [hi, lo] ++ left, output := out, werr := w } =
      (.ok { cmd := cmd, addressType := 4,
             destHost :=
               if isZeros (addr.take 10) = true ∧ addr.getD 10 0 = 0xff ∧ addr.getD 11 0 = 0xff
               then string4 (addr.drop 12) else string6 addr,
             destPort := Uint16 [hi, lo] },
        { input := left, output := out, werr := w }) := by
  rw [socks5_parseRequest_ipv6 v cmd rsv hi lo addr left out w hl]
  have e : IPString addr =
      if isZeros (addr.take 10) = true ∧ addr.getD 10 0 = 0xff ∧ addr.getD 11 0 = 0xff
      then string4 (addr.drop 12) else string6 addr := by
    by_cases hm : isZeros (addr.take 10) = true ∧ addr.getD 10 0 = 0xff ∧ addr.getD 11 0 = 0xff
    · simp [IPString, To4, hl, hm, -List.getD_eq_getElem?_getD]
    · simp [IPString, To4, hl, hm, -List.getD_eq_getElem?_getD]
  rw [e]

/-- Witness of C16: the address `2001:db8::1`, port 443, and its colon-hexadecimal text. -/
theorem C16_socks5_ipv6_host_witness :
    Socks5.parseRequest
        { input := [5, 1, 0, 4] ++ [0x20, 1, 0xd, 0xb8, 0, 0, 0, 0, 0, 0, 0, 0, 0, 0, 0, 1] ++
            [1, 0xBB] ++ [], output := [], werr := none } =
      (.ok { cmd := 1, addressType := 4,
             destHost :=
               if isZeros (([0x20, 1, 0xd, 0xb8, 0, 0, 0, 0, 0, 0, 0, 0, 0, 0, 0, 1] : Bytes).take
                    10) = true ∧
                  ([0x20, 1, 0xd, 0xb8, 0, 0, 0, 0, 0, 0, 0, 0, 0, 0, 0, 1] : Bytes).getD 10 0 =
                    0xff ∧
                  ([0x20, 1, 0xd, 0xb8, 0, 0, 0, 0, 0, 0, 0, 0, 0, 0, 0, 1] : Bytes).getD 11 0 =
                    0xff
               then string4 (([0x20, 1, 0xd, 0xb8, 0, 0, 0, 0, 0, 0, 0, 0, 0, 0, 0, 1] : Bytes).drop
                 12)
               else string6 [0x20, 1, 0xd, 0xb8, 0, 0, 0, 0, 0, 0, 0, 0, 0, 0, 0, 1],
             destPort := Uint16 [1, 0xBB] },
        { input := [], output := [], werr := none }) ∧
    string6 [0x20, 1, 0xd, 0xb8, 0, 0, 0, 0, 0, 0, 0, 0, 0, 0, 0, 1] = str "2001:db8::1" :=
  ⟨C16_socks5_ipv6_host 5 1 0 1 0xBB [0x20, 1, 0xd, 0xb8, 0, 0, 0, 0, 0, 0, 0, 0, 0, 0, 0, 1]
    [] [] none (by decide), by decide⟩

end Socks2conn

/-! ## Relay start and the user-id -/

namespace Socks2conn

/-- The relay is started by `tunnel` exactly when the decoder returned no error, the dial and
the write of the CONNECT request succeeded and the response was read with status 200. -/
theorem tunnel_relayStarted_iff (up : Server.Upstream) (v : Nat) (r : Outcome) :
    (Server.tunnel up v r).relayStarted = true ↔
      r.err = none ∧ up.dialErr = none ∧ up.writeErr = none ∧ up.response = .ok 200 := by
  unfold Server.tunnel
  cases he : r.err with
  | some e => simp
  | none =>
    cases hd : up.dialErr with
    | some e => simp
    | none =>
      cases hw : up.writeErr with
      | some e => simp
      | none =>
        cases hr : up.response with
        | error e => simp
        | ok s =>
          by_cases hs : s = 200
          · simp [hs]
          · simp [hs]

theorem serveConn_relayStarted (up : Server.Upstream) (conn : Conn)
    (h : (Server.serveConn up conn).relayStarted = true) :
    up.dialErr = none ∧ up.writeErr = none ∧ up.response = .ok 200 := by
  unfold Server.serveConn at h
  split at h
  · simp at h
  · split_ifs at h
    · exact ((tunnel_relayStarted_iff up _ _).mp h).2
    · exact ((tunnel_relayStarted_iff up _ _).mp h).2

/-- C17: in a run of the per-connection handler the relay (the two copy tasks) is started
only if the dial succeeded, the CONNECT request was written and the response was read with
status exactly 200; after a dial error, a write error, a response-read error or any status
other than 200 the handler returns with the relay not started. -/
theorem C17_relay_only_after_200 (up : Server.Upstream) (conn : Conn) :
    ((Server.serveConn up conn).relayStarted = true →
      up.dialErr = none ∧ up.writeErr = none ∧ up.response = .ok 200) ∧
    (up.dialErr ≠ none ∨ up.writeErr ≠ none ∨ (∃ e, up.response = .error e) ∨
        (∃ status, status ≠ 200 ∧ up.response = .ok status) →
      (Server.serveConn up conn).relayStarted = false) := by
  refine ⟨serveConn_relayStarted up conn, ?_⟩
  intro hfail
  cases hrel : (Server.serveConn up conn).relayStarted with
  | false => rfl
  | true =>
    obtain ⟨hd, hw, hr⟩ := serveConn_relayStarted up conn hrel
    rcases hfail with h | h | ⟨e, h⟩ | ⟨s, hs, h⟩
    · exact absurd hd h
    · exact absurd hw h
    · rw [hr] at h; cases h
    · rw [hr] at h
      injection h with h
      exact absurd h.symm hs

/-- Witness of C17: scenario A with an upstream answering 200 (the relay starts), and with an
upstream answering 502 (scenario C: it does not). -/
theorem C17_relay_only_after_200_witness :
    (Server.serveConn { dialErr := none, writeErr := none, response := .ok 200 }
        { input := [5, 1, 0, 5, 1, 0, 1, 93, 184, 216, 34, 0, 80], output := [],
          werr := none }).relayStarted = true ∧
    (Server.serveConn { dialErr := none, writeErr := none, response := .ok 502 }
        { input := [5, 1, 0, 5, 1, 0, 1, 93, 184, 216, 34, 0, 80], output := [],
          werr := none }).relayStarted = false ∧
    (Server.serveConn { dialErr := none, writeErr := none, response := .ok 502 }
        { input := [5, 1, 0, 5, 1, 0, 1, 93, 184, 216, 34, 0, 80], output := [],
          werr := none }).conn.output = [5, 0, 5, 0, 0, 1, 0, 0, 0, 0, 0, 0] :=
  ⟨by decide,
    (C17_relay_only_after_200 { dialErr := none, writeErr := none, response := .ok 502 }
      { input := [5, 1, 0, 5, 1, 0, 1, 93, 184, 216, 34, 0, 80], output := [],
        werr := none }).2 (Or.inr (Or.inr (Or.inr ⟨502, by decide, rfl⟩))),
    by decide⟩

/-- `parseRequest` of SOCKS4a on a complete request with a domain name. -/
theorem socks4a_parseRequest_domain (cmd p1 p2 x : Nat) (userid domain left out : Bytes)
    (w : Option Error) (hx : x ≠ 0) (hu : 0 ∉ userid) (hd : 0 ∉ domain) :
    Socks4a.parseRequest
        { input := [cmd, p1, p2, 0, 0, 0, x] ++ userid ++ [0] ++ domain ++ [0] ++ left,
          output := out, werr := w } =
      (.ok { cmd := cmd, destHost := domain, destPort := Uint16 [p1, p2] },
        { input := left, output := out, werr := w }) := by
  have e : [cmd, p1, p2, 0, 0, 0, x] ++ userid ++ [0] ++ domain ++ [0] ++ left =
      [cmd, p1, p2, 0, 0, 0, x] ++ (userid ++ 0 :: (domain ++ 0 :: left)) := by simp
  rw [e]
  have hr := readFull_append [cmd, p1, p2, 0, 0, 0, x] (userid ++ 0 :: (domain ++ 0 :: left)) out w
  simp only [List.length_cons, List.length_nil] at hr
  simp only [Socks4a.parseRequest, hr, socks4a_readUserId_append _ _ hu,
    socks4a_readDomainName_append _ _ hd]
  simp [Socks4a.isDomainUnresolved, hx]

/-- After the seven header bytes and a NUL-terminated user-id, `parseRequest` of SOCKS4a
continues as it would with an empty user-id. -/
theorem socks4a_parseRequest_userid (hdr userid tail out : Bytes) (w : Option Error)
    (hl : hdr.length = 7) (hu : 0 ∉ userid) :
    Socks4a.parseRequest
        { input := hdr ++ userid ++ [0] ++ tail, output := out, werr := w } =
      Socks4a.parseRequest { input := hdr ++ [] ++ [0] ++ tail, output := out, werr := w } := by
  have e1 : hdr ++ userid ++ [0] ++ tail = hdr ++ (userid ++ 0 :: tail) := by simp
  have e2 : hdr ++ [] ++ [0] ++ tail = hdr ++ ([] ++ 0 :: tail) := by simp
  have r1 := readFull_append hdr (userid ++ 0 :: tail) out w
  have r2 := readFull_append hdr ([] ++ 0 :: tail) out w
  rw [hl] at r1 r2
  rw [e1, e2]
  unfold Socks4a.parseRequest
  rw [r1, r2]
  simp only [socks4a_readUserId_append _ _ hu,
    socks4a_readUserId_append [] tail (List.not_mem_nil 0)]

/-- C18: two SOCKS4a inputs that differ only in the bytes of the user-id (seven header bytes
`hdr`, a user-id without zero byte, its NUL, then the same bytes `tail`) give the same result
of `parseRequest` (command, host, port and the input left unread) and the same result of
`handle` (reply bytes, destination, error); and when the IPv4 field is `0.0.0.x` with
`x ≠ 0` the domain is read from the byte that follows the NUL of the user-id. -/
theorem C18_socks4a_userid_ignored (hdr u1 u2 tail out : Bytes) (w : Option Error)
    (hl : hdr.length = 7) (h1 : 0 ∉ u1) (h2 : 0 ∉ u2) :
    Socks4a.parseRequest { input := hdr ++ u1 ++ [0] ++ tail, output := out, werr := w } =
      Socks4a.parseRequest { input := hdr ++ u2 ++ [0] ++ tail, output := out, werr := w } ∧
    Socks4a.handle { input := hdr ++ u1 ++ [0] ++ tail, output := out, werr := w } =
      Socks4a.handle { input := hdr ++ u2 ++ [0] ++ tail, output := out, werr := w } ∧
    (∀ (cmd p1 p2 x : Nat) (domain left : Bytes), x ≠ 0 → 0 ∉ domain →
      Socks4a.parseRequest
          { input := [cmd, p1, p2, 0, 0, 0, x] ++ u1 ++ [0] ++ domain ++ [0] ++ left,
            output := out, werr := w } =
        (.ok { cmd := cmd, destHost := domain, destPort := Uint16 [p1, p2] },
          { input := left, output := out, werr := w })) ∧
    (∀ (cmd p1 p2 a b c d : Nat) (left : Bytes), ¬ (a = 0 ∧ b = 0 ∧ c = 0 ∧ d ≠ 0) →
      (Socks4a.parseRequest
          { input := [cmd, p1, p2, a, b, c, d] ++ u1 ++ [0] ++ left,
            output := out, werr := w }).2.input = left) := by
  have hp : Socks4a.parseRequest { input := hdr ++ u1 ++ [0] ++ tail, output := out, werr := w } =
      Socks4a.parseRequest { input := hdr ++ u2 ++ [0] ++ tail, output := out, werr := w } := by
    rw [socks4a_parseRequest_userid hdr u1 tail out w hl h1,
      socks4a_parseRequest_userid hdr u2 tail out w hl h2]
  refine ⟨hp, ?_, ?_, ?_⟩
  · unfold Socks4a.handle
    rw [hp]
  · intro cmd p1 p2 x domain left hx hd
    exact socks4a_parseRequest_domain cmd p1 p2 x u1 domain left out w hx h1 hd
  · intro cmd p1 p2 a b c d left hip
    rw [socks4a_parseRequest_literal cmd p1 p2 a b c d u1 left out w h1 hip]

/-- Witness of C18: CONNECT to `a.b` (ip 0.0.0.7) port 8080 with user-ids `alice` and `bob`. -/
theorem C18_socks4a_userid_ignored_witness :
    Socks4a.handle
        { input := [1, 31, 144, 0, 0, 0, 7] ++ str "alice" ++ [0] ++ (str "a.b" ++ [0]),
          output := [], werr := none } =
      Socks4a.handle
        { input := [1, 31, 144, 0, 0, 0, 7] ++ str "bob" ++ [0] ++ (str "a.b" ++ [0]),
          output := [], werr := none } ∧
    Socks4a.handle
        { input := [1, 31, 144, 0, 0, 0, 7] ++ str "bob" ++ [0] ++ (str "a.b" ++ [0]),
          output := [], werr := none } =
      { addr := str "a.b:8080", err := none,
        conn := { input := [], output := [0, 90, 0, 0, 0, 0, 0, 0], werr := none } } :=
  ⟨(C18_socks4a_userid_ignored [1, 31, 144, 0, 0, 0, 7] (str "alice") (str "bob")
      (str "a.b" ++ [0]) [] none (by decide) (by decide) (by decide)).2.1,
    by decide⟩

end Socks2conn

/-! ## Decimal text of a number -/

namespace Socks2conn

theorem digitChar_toNat (d : Nat) (h : d < 10) : (Nat.digitChar d).toNat = 48 + d := by
  interval_cases d <;> rfl

/-- The digits produced by `Nat.toDigitsCore` in base ten, given enough fuel: they are put in
front of the accumulator, are decimal digits, have the value `n`, and do not start with `0`
unless `n` is 0. -/
theorem toDigitsCore_decimal (fuel : Nat) : ∀ n : Nat, n < fuel →
    ∃ q : Bytes, (∀ ds : List Char,
        (Nat.toDigitsCore 10 fuel n ds).map Char.toNat = q ++ ds.map Char.toNat) ∧
      (∀ ch ∈ q, 48 ≤ ch ∧ ch ≤ 57) ∧
      q.foldl (fun acc ch => 10 * acc + (ch - 48)) 0 = n ∧
      (n ≠ 0 → q.head? ≠ some 48) ∧ q ≠ [] := by
  induction fuel with
  | zero => intro n h; omega
  | succ fuel ih =>
    intro n hn
    have hd := digitChar_toNat (n % 10) (Nat.mod_lt _ (by decide))
    by_cases h0 : n / 10 = 0
    · refine ⟨[48 + n % 10], ?_, ?_, ?_, ?_, by simp⟩
      · intro ds
        simp [Nat.toDigitsCore, h0, hd]
      · intro ch hch
        simp only [List.mem_singleton] at hch
        omega
      · simp only [List.foldl_cons, List.foldl_nil]
        omega
      · intro hne
        simp only [List.head?_cons, ne_eq, Option.some.injEq]
        omega
    · have hlt : n / 10 < fuel := by omega
      obtain ⟨q, hq, hdig, hval, hhead, hnil⟩ := ih (n / 10) hlt
      refine ⟨q ++ [48 + n % 10], ?_, ?_, ?_, ?_, by simp⟩
      · intro ds
        simp [Nat.toDigitsCore, h0, hq, hd]
      · intro ch hch
        rcases List.mem_append.mp hch with h | h
        · exact hdig ch h
        · simp only [List.mem_singleton] at h
          omega
      · rw [List.foldl_append, hval]
        simp only [List.foldl_cons, List.foldl_nil]
        omega
      · intro _
        cases q with
        | nil => exact absurd rfl hnil
        | cons a q => exact hhead h0

/-- `Itoa n` is the decimal text of `n`: decimal digits only, of value `n`, not starting with
`0` unless `n` is 0. -/
theorem itoa_decimal (n : Nat) :
    (∀ ch ∈ Itoa n, 48 ≤ ch ∧ ch ≤ 57) ∧
      (Itoa n).foldl (fun acc ch => 10 * acc + (ch - 48)) 0 = n ∧
      (n ≠ 0 → (Itoa n).head? ≠ some 48) ∧ Itoa n ≠ [] := by
  obtain ⟨q, hq, h⟩ := toDigitsCore_decimal (n + 1) n (Nat.lt_succ_self n)
  have e : Itoa n = q := by
    have := hq []
    simpa [Itoa, Nat.toDigits] using this
  rw [e]
  exact h

theorem uint16_lt (b : Bytes) : Uint16 b < 65536 := by
  unfold Uint16
  exact Nat.mod_lt _ (by decide)

theorem joinHostPort_no_colon (host port : Bytes) (h : 58 ∉ host) :
    JoinHostPort host port = host ++ str ":" ++ port := by
  simp [JoinHostPort, h]

theorem joinHostPort_colon (host port : Bytes) (h : 58 ∈ host) :
    JoinHostPort host port = str "[" ++ host ++ str "]:" ++ port := by
  simp [JoinHostPort, h]

theorem joinHostPort_plain_iff (host port : Bytes) :
    JoinHostPort host port = host ++ str ":" ++ port ↔ 58 ∉ host := by
  constructor
  · intro h hc
    rw [joinHostPort_colon host port hc] at h
    have hlen := congrArg List.length h
    simp [str] at hlen
    omega
  · exact joinHostPort_no_colon host port

theorem socks4a_parseRequest_port (c c1 : Conn) (req : Socks4a.request)
    (hp : Socks4a.parseRequest c = (.ok req, c1)) : req.destPort < 65536 := by
  unfold Socks4a.parseRequest at hp
  split at hp
  · cases hp
  · split at hp
    · cases hp
    · dsimp only at hp
      split at hp
      · split at hp
        · cases hp
        · injection hp with h _
          injection h with h
          rw [← h]
          exact uint16_lt _
      · injection hp with h _
        injection h with h
        rw [← h]
        exact uint16_lt _

theorem socks5_parseRequest_port (c c1 : Conn) (req : Socks5.request)
    (hp : Socks5.parseRequest c = (.ok req, c1)) : req.destPort < 65536 := by
  unfold Socks5.parseRequest at hp
  split at hp
  · cases hp
  · dsimp only at hp
    split at hp
    · cases hp
    · split at hp
      · cases hp
      · injection hp with h _
        injection h with h
        rw [← h]
        exact uint16_lt _

end Socks2conn

/-! ## Bytes consumed and the destination string -/

namespace Socks2conn

/-- A SOCKS5 session with `0` among the methods and a CONNECT request that `parseRequest`
accepts, consuming it up to `left`: what `HandleConnection` returns. -/
theorem socks5_connect_session (ms wire left out : Bytes) (req : Socks5.request)
    (hms : 0 ∈ ms)
    (hp : Socks5.parseRequest { input := wire ++ left, output := out ++ [5, 0], werr := none } =
      (.ok req, { input := left, output := out ++ [5, 0], werr := none }))
    (hcmd : req.cmd = Socks5.connect) :
    Socks5.HandleConnection
        { input := ms.length :: ms ++ (wire ++ left), output := out, werr := none } =
      { addr := JoinHostPort req.destHost (Itoa req.destPort), err := none,
        conn := { input := left, output := out ++ [5, 0] ++ [5, 0, 0, 1, 0, 0, 0, 0, 0, 0],
                  werr := none } } := by
  have hh := socks5_handleHandshake_eval ms (wire ++ left) out
  rw [if_pos hms] at hh
  rw [Socks5.HandleConnection, socks5_handle_connect _ _ _ _ hh hp hcmd]

/-- C20 as stated fails: for the SOCKS5 CONNECT request with the domain `a%b` and port 80 the
returned destination is `a%b:80`, that is host, colon, port, although the host holds a
percent sign. -/
theorem C20_percent_host_is_not_bracketed :
    (Socks5.HandleConnection
        { input := [1, 0, 5, 1, 0, 3, 3, 97, 37, 98, 0, 80], output := [], werr := none }).addr =
      [97, 37, 98] ++ str ":" ++ Itoa 80 ∧
    (Socks5.HandleConnection
        { input := [1, 0, 5, 1, 0, 3, 3, 97, 37, 98, 0, 80], output := [], werr := none }).addr =
      str "a%b:80" ∧
    37 ∈ ([97, 37, 98] : Bytes) := by
  decide

/-- C20 as amended: when a decoder succeeds on a CONNECT request with host `destHost` and
port `destPort`, the destination returned by its `HandleConnection` is
`destHost ++ ":" ++ Itoa destPort` exactly when `destHost` holds no colon (a percent sign
does not matter), and `"[" ++ destHost ++ "]:" ++ Itoa destPort` when it holds one; the
port is below 65536 and `Itoa` prints it in decimal digits, with its value, without a
leading zero unless it is 0. -/
theorem C20_destination_format (c4 c4a c5 c5a c5b : Conn) (req4 : Socks4a.request)
    (req5 : Socks5.request)
    (hp4 : Socks4a.parseRequest c4 = (.ok req4, c4a)) (hcmd4 : req4.cmd = Socks4a.connect)
    (hw4 : c4.werr = none)
    (hh5 : Socks5.handleHandshake c5 = (none, c5a))
    (hp5 : Socks5.parseRequest c5a = (.ok req5, c5b)) (hcmd5 : req5.cmd = Socks5.connect) :
    (((Socks4a.HandleConnection c4).addr = req4.destHost ++ str ":" ++ Itoa req4.destPort ↔
        58 ∉ req4.destHost) ∧
      (58 ∈ req4.destHost → (Socks4a.HandleConnection c4).addr =
        str "[" ++ req4.destHost ++ str "]:" ++ Itoa req4.destPort) ∧
      req4.destPort < 65536) ∧
    (((Socks5.HandleConnection c5).addr = req5.destHost ++ str ":" ++ Itoa req5.destPort ↔
        58 ∉ req5.destHost) ∧
      (58 ∈ req5.destHost → (Socks5.HandleConnection c5).addr =
        str "[" ++ req5.destHost ++ str "]:" ++ Itoa req5.destPort) ∧
      req5.destPort < 65536) ∧
    (∀ n : Nat, (∀ ch ∈ Itoa n, 48 ≤ ch ∧ ch ≤ 57) ∧
      (Itoa n).foldl (fun acc ch => 10 * acc + (ch - 48)) 0 = n ∧
      (n ≠ 0 → (Itoa n).head? ≠ some 48) ∧ Itoa n ≠ []) := by
  have e4 : (Socks4a.HandleConnection c4).addr =
      JoinHostPort req4.destHost (Itoa req4.destPort) := by
    rw [Socks4a.HandleConnection, socks4a_handle_connect c4 c4a req4 hp4 hcmd4 hw4]
  have e5 : (Socks5.HandleConnection c5).addr =
      JoinHostPort req5.destHost (Itoa req5.destPort) := by
    rw [Socks5.HandleConnection, socks5_handle_connect c5 c5a c5b req5 hh5 hp5 hcmd5]
  refine ⟨⟨?_, ?_, socks4a_parseRequest_port c4 c4a req4 hp4⟩,
    ⟨?_, ?_, socks5_parseRequest_port c5a c5b req5 hp5⟩, itoa_decimal⟩
  · rw [e4]; exact joinHostPort_plain_iff _ _
  · intro h; rw [e4]; exact joinHostPort_colon _ _ h
  · rw [e5]; exact joinHostPort_plain_iff _ _
  · intro h; rw [e5]; exact joinHostPort_colon _ _ h

/-- Witness of C20: a SOCKS4a CONNECT to the domain `a%b` port 80, and a SOCKS5 CONNECT to
the IPv6 address `2001:db8::1` port 443, whose destination is bracketed. -/
theorem C20_destination_format_witness :
    ((Socks4a.HandleConnection
        { input := [1, 0, 80, 0, 0, 0, 1, 0, 97, 37, 98, 0], output := [],
          werr := none }).addr = [97, 37, 98] ++ str ":" ++ Itoa 80 ↔
      58 ∉ ([97, 37, 98] : Bytes)) ∧
    (Socks5.HandleConnection
        { input := [1, 0, 5, 1, 0, 4, 0x20, 1, 0xd, 0xb8, 0, 0, 0, 0, 0, 0, 0, 0, 0, 0, 0, 1,
            1, 0xBB], output := [], werr := none }).addr =
      str "[" ++ str "2001:db8::1" ++ str "]:" ++ Itoa 443 ∧
    str "[" ++ str "2001:db8::1" ++ str "]:" ++ Itoa 443 = str "[2001:db8::1]:443" :=
  have h := C20_destination_format
    { input := [1, 0, 80, 0, 0, 0, 1, 0, 97, 37, 98, 0], output := [], werr := none }
    { input := [], output := [], werr := none }
    { input := [1, 0, 5, 1, 0, 4, 0x20, 1, 0xd, 0xb8, 0, 0, 0, 0, 0, 0, 0, 0, 0, 0, 0, 1,
        1, 0xBB], output := [], werr := none }
    { input := [5, 1, 0, 4, 0x20, 1, 0xd, 0xb8, 0, 0, 0, 0, 0, 0, 0, 0, 0, 0, 0, 1, 1, 0xBB],
      output := [5, 0], werr := none }
    { input := [], output := [5, 0], werr := none }
    { cmd := 1, destHost := [97, 37, 98], destPort := 80 }
    { cmd := 1, addressType := 4, destHost := str "2001:db8::1", destPort := 443 }
    (by decide) (by decide) (by decide) (by decide) (by decide) (by decide)
  ⟨h.1.1, h.2.1.2.1 (by decide), by decide⟩

end Socks2conn

/-! ## The returned destination and the bytes consumed -/

namespace Socks2conn

/-- C8: when `parseRequest` accepts the request and its command is CONNECT, on a connection
that accepts writes, `handle` writes the eight bytes `0, 90, 0, 0, 0, 0, 0, 0` and nothing
else, and returns with a nil error the destination `JoinHostPort(destHost, Itoa(destPort))`:
that is `destHost`, a colon and the port when `destHost` holds no colon, and the bracketed
form when it holds one, the port being printed in decimal digits, with its value and without
a leading zero. On CONNECT to 10.1.2.3 port 8080 the destination is `10.1.2.3:8080`, and on
scenario B it is `example.com:443`. -/
theorem C8_socks4a_connect_grant_reply (c c1 : Conn) (req : Socks4a.request)
    (hp : Socks4a.parseRequest c = (.ok req, c1)) (hcmd : req.cmd = Socks4a.connect)
    (hw : c.werr = none) :
    ((Socks4a.handle c).conn.output = c.output ++ [0, 90, 0, 0, 0, 0, 0, 0] ∧
      (Socks4a.handle c).err = none ∧
      (Socks4a.handle c).addr = JoinHostPort req.destHost (Itoa req.destPort) ∧
      (Socks4a.handle c).conn.input = c1.input) ∧
    ((58 ∉ req.destHost →
        (Socks4a.handle c).addr = req.destHost ++ str ":" ++ Itoa req.destPort) ∧
      (58 ∈ req.destHost →
        (Socks4a.handle c).addr = str "[" ++ req.destHost ++ str "]:" ++ Itoa req.destPort) ∧
      (∀ ch ∈ Itoa req.destPort, 48 ≤ ch ∧ ch ≤ 57) ∧
      (Itoa req.destPort).foldl (fun acc ch => 10 * acc + (ch - 48)) 0 = req.destPort ∧
      (req.destPort ≠ 0 → (Itoa req.destPort).head? ≠ some 48) ∧
      Itoa req.destPort ≠ [] ∧
      req.destPort < 65536) ∧
    Socks4a.handle
        { input := [1, 31, 144, 10, 1, 2, 3] ++ str "bob" ++ [0], output := [],
          werr := none } =
      { addr := str "10.1.2.3:8080", err := none,
        conn := { input := [], output := [0, 90, 0, 0, 0, 0, 0, 0], werr := none } } ∧
    Socks4a.handle
        { input := [1, 1, 0xBB, 0, 0, 0, 1, 0] ++ str "example.com" ++ [0], output := [],
          werr := none } =
      { addr := str "example.com:443", err := none,
        conn := { input := [], output := [0, 90, 0, 0, 0, 0, 0, 0], werr := none } } := by
  have e := socks4a_handle_connect c c1 req hp hcmd hw
  obtain ⟨hdig, hval, hhead, hnil⟩ := itoa_decimal req.destPort
  refine ⟨?_, ⟨?_, ?_, hdig, hval, hhead, hnil, socks4a_parseRequest_port c c1 req hp⟩,
    by decide, by decide⟩
  · rw [e]
    exact ⟨rfl, rfl, rfl, rfl⟩
  · intro h
    rw [e]
    exact joinHostPort_no_colon _ _ h
  · intro h
    rw [e]
    exact joinHostPort_colon _ _ h

/-- Witness of C8: CONNECT to 10.1.2.3 port 8080 with user-id `bob`; the destination is the
text `10.1.2.3:8080`. -/
theorem C8_socks4a_connect_grant_reply_witness :
    ((Socks4a.handle
        { input := [1, 31, 144, 10, 1, 2, 3] ++ str "bob" ++ [0], output := [],
          werr := none }).conn.output = [0, 90, 0, 0, 0, 0, 0, 0] ∧
      (Socks4a.handle
        { input := [1, 31, 144, 10, 1, 2, 3] ++ str "bob" ++ [0], output := [],
          werr := none }).err = none ∧
      (Socks4a.handle
        { input := [1, 31, 144, 10, 1, 2, 3] ++ str "bob" ++ [0], output := [],
          werr := none }).conn.input = []) ∧
    (Socks4a.handle
        { input := [1, 31, 144, 10, 1, 2, 3] ++ str "bob" ++ [0], output := [],
          werr := none }).addr = str "10.1.2.3" ++ str ":" ++ Itoa 8080 ∧
    str "10.1.2.3" ++ str ":" ++ Itoa 8080 = str "10.1.2.3:8080" ∧
    Itoa 8080 = [56, 48, 56, 48] :=
  have h := C8_socks4a_connect_grant_reply
    { input := [1, 31, 144, 10, 1, 2, 3] ++ str "bob" ++ [0], output := [], werr := none }
    { input := [], output := [], werr := none }
    { cmd := 1, destHost := str "10.1.2.3", destPort := 8080 }
    (by decide) (by decide) (by decide)
  ⟨⟨h.1.1, h.1.2.1, h.1.2.2.2⟩, h.2.1.1 (by decide), by decide, by decide⟩

/-- C10: for a SOCKS5 request of address type 3 with length byte `h.length`, the bytes `h`
and the port bytes `hi`, `lo`, `parseRequest` returns `destHost = h` and
`destPort = 256 * hi + lo` and leaves the rest of the input unread; after a successful
handshake a CONNECT request of that form makes `handle` return, with a nil error, the string
`h ++ ":" ++ Itoa (256 * hi + lo)` whenever `h` holds no colon, where `Itoa (256 * hi + lo)`
is the port in decimal digits, with its value and without a leading zero; for the domain
`example.com` and the port bytes `1, 187` the string is `example.com:443`. -/
theorem C10_socks5_domain_request (v cmd rsv hi lo : Nat) (h left out : Bytes)
    (w : Option Error) (hhi : hi < 256) (hlo : lo < 256) :
    (Socks5.parseRequest
        { input := [v, cmd, rsv, 3, h.length] ++ h ++ [hi, lo] ++ left, output := out, werr := w } =
      (.ok { cmd := cmd, addressType := 3, destHost := h, destPort := 256 * hi + lo },
        { input := left, output := out, werr := w }) ∧
    ∀ ms : Bytes, 0 ∈ ms → 58 ∉ h →
      (Socks5.handle
        { input := ms.length :: ms ++ ([v, 1, rsv, 3, h.length] ++ h ++ [hi, lo] ++ left),
          output := out, werr := none }).addr = h ++ str ":" ++ Itoa (256 * hi + lo) ∧
      (Socks5.handle
        { input := ms.length :: ms ++ ([v, 1, rsv, 3, h.length] ++ h ++ [hi, lo] ++ left),
          output := out, werr := none }).err = none) ∧
    ((∀ ch ∈ Itoa (256 * hi + lo), 48 ≤ ch ∧ ch ≤ 57) ∧
      (Itoa (256 * hi + lo)).foldl (fun acc ch => 10 * acc + (ch - 48)) 0 = 256 * hi + lo ∧
      (256 * hi + lo ≠ 0 → (Itoa (256 * hi + lo)).head? ≠ some 48) ∧
      Itoa (256 * hi + lo) ≠ [] ∧
      256 * hi + lo < 65536) ∧
    Socks5.handle
        { input := [1, 0] ++ ([5, 1, 0, 3, 11] ++ str "example.com" ++ [1, 187]),
          output := [], werr := none } =
      { addr := str "example.com:443", err := none,
        conn := { input := [], output := [5, 0, 5, 0, 0, 1, 0, 0, 0, 0, 0, 0], werr := none } } := by
  have hu := uint16_bytes hi lo hhi hlo
  obtain ⟨hdig, hval, hhead, hnil⟩ := itoa_decimal (256 * hi + lo)
  refine ⟨⟨?_, ?_⟩, ⟨hdig, hval, hhead, hnil, by omega⟩, by decide⟩
  · rw [socks5_parseRequest_domain, hu]
  · intro ms hms hcolon
    have hh := socks5_handleHandshake_eval ms
      ([v, 1, rsv, 3, h.length] ++ h ++ [hi, lo] ++ left) out
    rw [if_pos hms] at hh
    have hp := socks5_parseRequest_domain v 1 rsv hi lo h left (out ++ [5, 0]) none
    rw [socks5_handle_connect _ _ _ _ hh hp rfl]
    simp [JoinHostPort, hcolon, hu]

/-- Witness of C10: methods `[0]`, domain `example.com`, port bytes `1, 187`; the port text
is `443` and the destination `example.com:443`. -/
theorem C10_socks5_domain_request_witness :
    (1 < 256 ∧ 187 < 256) ∧
    Socks5.parseRequest
        { input := [5, 1, 0, 3, (str "example.com").length] ++ str "example.com" ++ [1, 187] ++ [],
          output := [], werr := none } =
      (.ok { cmd := 1, addressType := 3, destHost := str "example.com",
             destPort := 256 * 1 + 187 },
        { input := [], output := [], werr := none }) ∧
    (Socks5.handle
        { input := ([0] : Bytes).length :: [0] ++
            ([5, 1, 0, 3, (str "example.com").length] ++ str "example.com" ++ [1, 187] ++ []),
          output := [], werr := none }).addr =
      str "example.com" ++ str ":" ++ Itoa (256 * 1 + 187) ∧
    str "example.com" ++ str ":" ++ Itoa (256 * 1 + 187) = str "example.com:443" ∧
    Itoa (256 * 1 + 187) = [52, 52, 51] :=
  have h := C10_socks5_domain_request 5 1 0 1 187 (str "example.com") [] [] none
    (by decide) (by decide)
  ⟨by decide, h.1.1, (h.1.2 [0] (by decide) (by decide)).1, by decide, by decide⟩

/-- C19: on success each decoder consumes exactly the handshake. For SOCKS5 (count byte,
`ms.length` methods holding `0`, then a CONNECT request) the input left unread by
`HandleConnection` is what follows the 4 header bytes, the address (4 bytes, whatever they
are; the length byte and `h.length` bytes; 16 bytes) and the 2 port bytes; for SOCKS4a
(CONNECT, user-id without zero byte) it is what follows the 7 header bytes, the user-id and
its NUL, and, when the IPv4 field is `0.0.0.x` with `x ≠ 0`, the domain and its NUL. -/
theorem C19_decoders_consume_exactly_handshake (ms h addr userid domain left out : Bytes)
    (v rsv hi lo a5 b5 c5 d5 a b c d x p1 p2 : Nat)
    (hms : 0 ∈ ms) (hl : addr.length = 16) (hu : 0 ∉ userid) (hd : 0 ∉ domain) (hx : x ≠ 0)
    (hip : ¬ (a = 0 ∧ b = 0 ∧ c = 0 ∧ d ≠ 0)) :
    ((Socks5.HandleConnection
        { input := ms.length :: ms ++ ([v, 1, rsv, 1, a5, b5, c5, d5, hi, lo] ++ left),
          output := out, werr := none }).conn.input = left ∧
      (Socks5.HandleConnection
        { input := ms.length :: ms ++ ([v, 1, rsv, 1, a5, b5, c5, d5, hi, lo] ++ left),
          output := out, werr := none }).err = none ∧
      (ms.length :: ms ++ [v, 1, rsv, 1, a5, b5, c5, d5, hi, lo]).length =
        1 + ms.length + 4 + 4 + 2) ∧
    ((Socks5.HandleConnection
        { input := ms.length :: ms ++ ([v, 1, rsv, 3, h.length] ++ h ++ [hi, lo] ++ left),
          output := out, werr := none }).conn.input = left ∧
      (Socks5.HandleConnection
        { input := ms.length :: ms ++ ([v, 1, rsv, 3, h.length] ++ h ++ [hi, lo] ++ left),
          output := out, werr := none }).err = none ∧
      (ms.length :: ms ++ ([v, 1, rsv, 3, h.length] ++ h ++ [hi, lo])).length =
        1 + ms.length + 4 + (1 + h.length) + 2) ∧
    ((Socks5.HandleConnection
        { input := ms.length :: ms ++ ([v, 1, rsv, 4] ++ addr ++ [hi, lo] ++ left),
          output := out, werr := none }).conn.input = left ∧
      (Socks5.HandleConnection
        { input := ms.length :: ms ++ ([v, 1, rsv, 4] ++ addr ++ [hi, lo] ++ left),
          output := out, werr := none }).err = none ∧
      (ms.length :: ms ++ ([v, 1, rsv, 4] ++ addr ++ [hi, lo])).length =
        1 + ms.length + 4 + 16 + 2) ∧
    ((Socks4a.HandleConnection
        { input := [1, p1, p2, a, b, c, d] ++ userid ++ [0] ++ left,
          output := out, werr := none }).conn.input = left ∧
      (Socks4a.HandleConnection
        { input := [1, p1, p2, a, b, c, d] ++ userid ++ [0] ++ left,
          output := out, werr := none }).err = none ∧
      ([1, p1, p2, a, b, c, d] ++ userid ++ [0]).length = 7 + userid.length + 1) ∧
    ((Socks4a.HandleConnection
        { input := [1, p1, p2, 0, 0, 0, x] ++ userid ++ [0] ++ domain ++ [0] ++ left,
          output := out, werr := none }).conn.input = left ∧
      (Socks4a.HandleConnection
        { input := [1, p1, p2, 0, 0, 0, x] ++ userid ++ [0] ++ domain ++ [0] ++ left,
          output := out, werr := none }).err = none ∧
      ([1, p1, p2, 0, 0, 0, x] ++ userid ++ [0] ++ domain ++ [0]).length =
        7 + userid.length + 1 + (domain.length + 1)) := by
  refine ⟨⟨?_, ?_, ?_⟩, ⟨?_, ?_, ?_⟩, ⟨?_, ?_, ?_⟩, ⟨?_, ?_, ?_⟩, ⟨?_, ?_, ?_⟩⟩
  · rw [socks5_connect_session ms _ left out _ hms
      (socks5_parseRequest_ipv4 v 1 rsv a5 b5 c5 d5 hi lo left _ none) rfl]
  · rw [socks5_connect_session ms _ left out _ hms
      (socks5_parseRequest_ipv4 v 1 rsv a5 b5 c5 d5 hi lo left _ none) rfl]
  · simp; omega
  · rw [socks5_connect_session ms _ left out _ hms
      (socks5_parseRequest_domain v 1 rsv hi lo h left _ none) rfl]
  · rw [socks5_connect_session ms _ left out _ hms
      (socks5_parseRequest_domain v 1 rsv hi lo h left _ none) rfl]
  · simp; omega
  · rw [socks5_connect_session ms _ left out _ hms
      (socks5_parseRequest_ipv6 v 1 rsv hi lo addr left _ none hl) rfl]
  · rw [socks5_connect_session ms _ left out _ hms
      (socks5_parseRequest_ipv6 v 1 rsv hi lo addr left _ none hl) rfl]
  · simp [hl]; omega
  · rw [Socks4a.HandleConnection, socks4a_handle_connect _ _ _
      (socks4a_parseRequest_literal 1 p1 p2 a b c d userid left out none hu hip) rfl rfl]
  · rw [Socks4a.HandleConnection, socks4a_handle_connect _ _ _
      (socks4a_parseRequest_literal 1 p1 p2 a b c d userid left out none hu hip) rfl rfl]
  · simp; omega
  · rw [Socks4a.HandleConnection, socks4a_handle_connect _ _ _
      (socks4a_parseRequest_domain 1 p1 p2 x userid domain left out none hx hu hd) rfl rfl]
  · rw [Socks4a.HandleConnection, socks4a_handle_connect _ _ _
      (socks4a_parseRequest_domain 1 p1 p2 x userid domain left out none hx hu hd) rfl rfl]
  · simp; omega

/-- Witness of C19: methods `[2, 0]`, the SOCKS5 IPv4 address 0.0.0.7, the domain `ab`, the
address `2001:db8::1`, user-id `u`, the SOCKS4a ip 10.1.2.3 and, with the domain `cd`,
0.0.0.7; three bytes `9, 9, 9` sent after the handshake are left unread. -/
theorem C19_decoders_consume_exactly_handshake_witness :
    (Socks5.HandleConnection
        { input := ([2, 0] : Bytes).length :: [2, 0] ++
            ([5, 1, 0, 1, 0, 0, 0, 7, 0, 80] ++ [9, 9, 9]),
          output := [], werr := none }).conn.input = [9, 9, 9] ∧
    (Socks5.HandleConnection
        { input := ([2, 0] : Bytes).length :: [2, 0] ++
            ([5, 1, 0, 3, ([97, 98] : Bytes).length] ++ [97, 98] ++ [0, 80] ++ [9, 9, 9]),
          output := [], werr := none }).conn.input = [9, 9, 9] ∧
    (Socks5.HandleConnection
        { input := ([2, 0] : Bytes).length :: [2, 0] ++
            ([5, 1, 0, 4] ++ [0x20, 1, 0xd, 0xb8, 0, 0, 0, 0, 0, 0, 0, 0, 0, 0, 0, 1] ++
              [0, 80] ++ [9, 9, 9]),
          output := [], werr := none }).conn.input = [9, 9, 9] ∧
    (Socks4a.HandleConnection
        { input := [1, 0, 80, 10, 1, 2, 3] ++ [117] ++ [0] ++ [9, 9, 9],
          output := [], werr := none }).conn.input = [9, 9, 9] ∧
    (Socks4a.HandleConnection
        { input := [1, 0, 80, 0, 0, 0, 7] ++ [117] ++ [0] ++ [99, 100] ++ [0] ++ [9, 9, 9],
          output := [], werr := none }).conn.input = [9, 9, 9] ∧
    Socks5.HandleConnection
        { input := [2, 2, 0, 5, 1, 0, 1, 0, 0, 0, 7, 0, 80, 9, 9, 9], output := [],
          werr := none } =
      { addr := str "0.0.0.7:80", err := none,
        conn := { input := [9, 9, 9], output := [5, 0, 5, 0, 0, 1, 0, 0, 0, 0, 0, 0],
                  werr := none } } :=
  have h := C19_decoders_consume_exactly_handshake [2, 0] [97, 98]
    [0x20, 1, 0xd, 0xb8, 0, 0, 0, 0, 0, 0, 0, 0, 0, 0, 0, 1] [117] [99, 100] [9, 9, 9] []
    5 0 0 80 0 0 0 7 10 1 2 3 7 0 80
    (by decide) (by decide) (by decide) (by decide) (by decide) (by decide)
  ⟨h.1.1, h.2.1.1, h.2.2.1.1, h.2.2.2.1.1, h.2.2.2.2.1, by decide⟩

end Socks2conn
